import Mathlib

/-!
# Pagination widget of `public/js/app.js`

A shallow embedding of the script `public/js/app.js`: the paging state, the
request issued by `fetchUsers`, the normalisation of the response (user list
and total), the two renderers and the click handlers.

Conventions of the embedding.

* JavaScript values that the script handles are the values of a parsed JSON
  body plus `undefined` (the result of reading a missing property).
* Numbers are mathematical integers (`Int`); this is exact for the doubles of
  the safe-integer range, which is where page numbers, offsets and totals
  live.  The results of `Number(...)` additionally include `NaN` and the two
  infinities.  Numbers that are finite but not integers are outside the
  model.
* An object is the list of its own properties in the order in which
  `Object.values` enumerates them.
* Exceptions are explicit: a function that can throw returns `Except`.
-/

namespace TFDS

/-! ## JavaScript values -/

/-- Result of the `Number(...)` conversion: a finite number or one of the
three non-finite doubles. -/
inductive JSNum where
  | nan
  | posInf
  | negInf
  | fin (n : Int)
  deriving DecidableEq, Repr

/-- The values the script works on. -/
inductive JSVal where
  | undefined
  | null
  | bool (b : Bool)
  | num (n : Int)
  | str (s : String)
  | arr (items : List JSVal)
  | obj (props : List (String × JSVal))
  deriving Repr

/-- An exception object; only its `message` is ever read by the script. -/
structure JSError where
  message : String
  deriving DecidableEq, Repr

/-- The test `Array.isArray(v)`. -/
def isArray : JSVal → Bool
  | .arr _ => true
  | _ => false

/-- JavaScript truthiness (`ToBoolean`): `undefined`, `null`, `false`, `0`
and the empty string are falsy, everything else (arrays and objects too) is
truthy. -/
def truthy : JSVal → Bool
  | .undefined => false
  | .null => false
  | .bool b => b
  | .num n => n != 0
  | .str s => s.data != []
  | .arr _ => true
  | .obj _ => true

/-- Truthiness of a number: `0` and `NaN` are falsy. -/
def JSNum.truthy : JSNum → Bool
  | .nan => false
  | .fin n => n != 0
  | _ => true

/-- The operator `a || b`. -/
def jsOr (a b : JSVal) : JSVal := if truthy a then a else b

/-- The test `v != null` (loose inequality: false for `null` and `undefined`
only). -/
def notNullish : JSVal → Bool
  | .undefined => false
  | .null => false
  | _ => true

/-- Own property lookup in a property list: the first entry with that key,
`undefined` when there is none. -/
def lookupProp (key : String) : List (String × JSVal) → JSVal
  | [] => .undefined
  | (k, v) :: rest => if k = key then v else lookupProp key rest

/-- The field `key` of a value that is neither `null` nor `undefined`: the
own property of an object, `undefined` for every other value. -/
def propOf (v : JSVal) (key : String) : JSVal :=
  match v with
  | .obj props => lookupProp key props
  | _ => .undefined

/-- V8's message for reading a property of `null` or `undefined`. -/
def readOfNullish (base key : String) : JSError :=
  ⟨"Cannot read properties of " ++ base ++ " (reading \x27" ++ key ++ "\x27)"⟩

/-- Property read `v.key` for the property names the script uses (none of
them is defined on a built-in prototype, so only objects can have them):
throws a `TypeError` on `null` and `undefined`. -/
def getProp (v : JSVal) (key : String) : Except JSError JSVal :=
  match v with
  | .undefined => .error (readOfNullish "undefined" key)
  | .null => .error (readOfNullish "null" key)
  | _ => .ok (propOf v key)

/-- The list `Object.values(v)`: the own enumerable property values, in
enumeration order.  A string enumerates its characters, a number or boolean
has none; `null` and `undefined` throw. -/
def objectValues : JSVal → Except JSError (List JSVal)
  | .undefined => .error ⟨"Cannot convert undefined or null to object"⟩
  | .null => .error ⟨"Cannot convert undefined or null to object"⟩
  | .obj props => .ok (props.map Prod.snd)
  | .arr items => .ok items
  | .str s => .ok (s.data.map fun c => .str (String.singleton c))
  | _ => .ok []

/-- Decimal rendering of an integer, as `String(n)` gives it in the
safe-integer range. -/
def intToStr (n : Int) : String := toString n

/-- The test for `null` or `undefined`. -/
def isNullish : JSVal → Bool
  | .undefined => true
  | .null => true
  | _ => false

mutual
/-- The conversion `String(v)` (`ToString`). -/
def toStr : JSVal → String
  | .undefined => "undefined"
  | .null => "null"
  | .bool b => if b then "true" else "false"
  | .num n => intToStr n
  | .str s => s
  | .arr items => joinItems items
  | .obj _ => "[object Object]"
/-- The string `items.join(",")`: `null` and `undefined` elements contribute
the empty string. -/
def joinItems : List JSVal → String
  | [] => ""
  | x :: rest =>
    (if isNullish x then "" else toStr x) ++
      (match rest with
       | [] => ""
       | _ :: _ => "," ++ joinItems rest)
end

/-- The white space that `Number(string)` strips from both ends
(`StrWhiteSpaceChar`). -/
def isStrWhiteSpace (c : Char) : Bool :=
  let n := c.toNat
  n == 9 || n == 10 || n == 11 || n == 12 || n == 13 || n == 32 || n == 0xA0 ||
  n == 0x1680 || (0x2000 ≤ n && n ≤ 0x200A) || n == 0x2028 || n == 0x2029 ||
  n == 0x202F || n == 0x205F || n == 0x3000 || n == 0xFEFF

/-- Strip white space from both ends. -/
def trimWs (cs : List Char) : List Char :=
  ((cs.dropWhile isStrWhiteSpace).reverse.dropWhile isStrWhiteSpace).reverse

/-- Value of one digit in the radix `base` (`0-9`, `a-f`, `A-F`), `none` for
any other character. -/
def digitValue (base : Nat) (c : Char) : Option Nat :=
  let n := c.toNat
  let v : Option Nat :=
    if 48 ≤ n ∧ n ≤ 57 then some (n - 48)
    else if 97 ≤ n ∧ n ≤ 102 then some (n - 87)
    else if 65 ≤ n ∧ n ≤ 70 then some (n - 55)
    else none
  match v with
  | some d => if d < base then some d else none
  | none => none

/-- Value of a run of digits in the radix `base`, `none` when another
character occurs. -/
def parseDigits (base : Nat) (acc : Nat) : List Char → Option Nat
  | [] => some acc
  | c :: cs =>
    match digitValue base c with
    | some d => parseDigits base (acc * base + d) cs
    | none => none

/-- The literals `0x..`, `0o..`, `0b..` (either case of the letter) with at
least one digit; they take no sign. -/
def parseRadixLiteral (cs : List Char) : Option Nat :=
  match cs with
  | '0' :: p :: d :: rest =>
    if p = 'x' ∨ p = 'X' then parseDigits 16 0 (d :: rest)
    else if p = 'o' ∨ p = 'O' then parseDigits 8 0 (d :: rest)
    else if p = 'b' ∨ p = 'B' then parseDigits 2 0 (d :: rest)
    else none
  | _ => none

/-- The exponent after `e` or `E`: an optional sign and at least one decimal
digit. -/
def parseExponent (cs : List Char) : Option Int :=
  let signed : Bool × List Char :=
    match cs with
    | '-' :: r => (true, r)
    | '+' :: r => (false, r)
    | r => (false, r)
  if signed.2 = [] then none
  else
    match parseDigits 10 0 signed.2 with
    | some e => some (if signed.1 then -(e : Int) else (e : Int))
    | none => none

/-- An unsigned decimal literal `digits [. digits] [exponent]` or
`. digits [exponent]`, as the pair `(m, x)` of its value `m * 10 ^ x`. -/
def parseDecimal (cs : List Char) : Option (Nat × Int) :=
  let intPart := cs.span Char.isDigit
  let fracPart : List Char × List Char :=
    match intPart.2 with
    | '.' :: r => r.span Char.isDigit
    | r => ([], r)
  if intPart.1 = [] ∧ fracPart.1 = [] then none
  else
    let exponent : Option Int :=
      match fracPart.2 with
      | [] => some 0
      | c :: r => if c = 'e' ∨ c = 'E' then parseExponent r else none
    match parseDigits 10 0 (intPart.1 ++ fracPart.1), exponent with
    | some m, some e => some (m, e - (fracPart.1.length : Int))
    | _, _ => none

/-- The least integer that the doubles round to infinity,
`2 ^ 1024 - 2 ^ 970`. -/
def overflowBound : Nat :=
  179769313486231580793728971405303415079934132710037826936173778980444968292764750946649017977587207096330286416692887910946555547851940402630657488671505820681908902000708383676273854845817711531764475730270069855571366959622842914819860834936475292719074168444365510704342711559699508093042880177904174497792

/-- The number `2 ^ 1075`: a value of at most `2 ^ (-1075)` rounds to `0`. -/
def underflowBound : Nat :=
  404804506614621236704990693437834614099113299528284236713802716054860679135990693783920767402874248990374155728633623822779617474771586953734026799881477019843034848553132722728933815484186432682479535356945490137124014966849385397236206711298319112681620113024717539104666829230461005064372655017292012526615415482186989568

/-- A non-negative integer as a number: from `overflowBound` on, the doubles
round to infinity. -/
def roundInt (neg : Bool) (v : Nat) : JSNum :=
  if overflowBound ≤ v then (if neg then .negInf else .posInf)
  else .fin (if neg then -(v : Int) else (v : Int))

/-- The number `m * 10 ^ x` of a decimal literal, on the integer model. A
value of at most `2 ^ (-1075)` rounds to `0`. A finite value that is not an
integer has no counterpart in the integer model and is given as `NaN`. -/
def decimalValue (neg : Bool) (m : Nat) (x : Int) : JSNum :=
  if m = 0 then .fin 0
  else if 0 ≤ x then roundInt neg (m * 10 ^ x.toNat)
  else if m % 10 ^ (-x).toNat = 0 then roundInt neg (m / 10 ^ (-x).toNat)
  else if m * underflowBound ≤ 10 ^ (-x).toNat then .fin 0
  else .nan

/-- The conversion `Number(s)` of a string (`StringToNumber`), on the integer
model: white space is stripped from both ends; the empty string is `0`; a
radix literal is its value; an optionally signed `Infinity` is an infinity;
an optionally signed decimal literal (with fraction and exponent) is its
value when that is an integer; every string outside this grammar is `NaN`. -/
def stringToNumber (s : String) : JSNum :=
  let cs := trimWs s.data
  if cs = [] then .fin 0
  else
    match parseRadixLiteral cs with
    | some v => roundInt false v
    | none =>
      let signed : Bool × List Char :=
        match cs with
        | '-' :: r => (true, r)
        | '+' :: r => (false, r)
        | r => (false, r)
      if signed.2 = "Infinity".data then (if signed.1 then .negInf else .posInf)
      else
        match parseDecimal signed.2 with
        | some (m, x) => decimalValue signed.1 m x
        | none => .nan

/-- The conversion `Number(v)` (`ToNumber`). -/
def toNumber : JSVal → JSNum
  | .undefined => .nan
  | .null => .fin 0
  | .bool b => .fin (if b then 1 else 0)
  | .num n => .fin n
  | .str s => stringToNumber s
  | .arr items => stringToNumber (joinItems items)
  | .obj _ => .nan

/-- The product `x * k` of a number with an integer. -/
def JSNum.mulInt (x : JSNum) (k : Int) : JSNum :=
  match x with
  | .nan => .nan
  | .fin n => .fin (n * k)
  | .posInf => if 0 < k then .posInf else if k < 0 then .negInf else .nan
  | .negInf => if 0 < k then .negInf else if k < 0 then .posInf else .nan

/-! ## Paging state and the HTTP exchange -/

/-- The object `state` of the script. `totalItems = none` is `null`. -/
structure PagingState where
  currentPage : Int
  pageSize : Int
  totalItems : Option Int
  deriving DecidableEq, Repr

/-- The initial `state` (lines 10-14). -/
def initialState : PagingState :=
  { currentPage := 1, pageSize := 10, totalItems := none }

/-- The request that `fetchUsers` passes to `fetch`. -/
structure Request where
  url : String
  accept : String
  offset : Int
  limit : Int
  deriving DecidableEq, Repr

/-- Lines 32-41 of `fetchUsers(page)`: the offset, the limit and the URL built
from them. -/
def buildRequest (state : PagingState) (page : Int) : Request :=
  let offset := (page - 1) * state.pageSize
  let limit := state.pageSize
  { url := "/api/users?offset=" ++ intToStr offset ++ "&limit=" ++ intToStr limit,
    accept := "application/json",
    offset := offset,
    limit := limit }

/-- What the script reads of a `Response`: `ok`, `status`, the value of the
header `X-Total-Count` (`headers.get` is case-insensitive and gives `null`
when the header is absent) and the outcome of `response.json()`. -/
structure Response where
  ok : Bool
  status : Int
  xTotalCount : Option String
  json : Except JSError JSVal

/-- The call `response.headers.get(name)` for either spelling of
`X-Total-Count`. -/
def headersGet (r : Response) : JSVal :=
  match r.xTotalCount with
  | none => .null
  | some s => .str s

/-- The method `values.find(v => Array.isArray(v))`: the first array, or
`undefined`. -/
def findArray (values : List JSVal) : JSVal :=
  match values.find? isArray with
  | some v => v
  | none => .undefined

/-- Lines 52-67: the value of `users` found in the parsed body. -/
def extractUsers (data : JSVal) : Except JSError JSVal :=
  if isArray data then pure data
  else do
    let users ← getProp data "users"
    if isArray users then pure users
    else
      let d ← getProp data "data"
      if isArray d then pure d
      else
        let results ← getProp data "results"
        if isArray results then pure results
        else
          let its ← getProp data "items"
          if isArray its then pure its
          else
            let values ← objectValues data
            pure (jsOr (findArray values) (.arr []))

/-- The test `!total` on the variable `total` (`none` is `null`). -/
def totalFalsy : Option JSNum → Bool
  | none => true
  | some x => !x.truthy

/-- Lines 70-85: the variable `total` after all the sources were tried, each
assignment overwriting the previous value; `headerTotal` is the header value
read at line 72. -/
def extractTotal (headerTotal : JSVal) (data : JSVal) (pageSize : Int) :
    Except JSError (Option JSNum) := do
  let total0 : Option JSNum := none
  let total1 := if truthy headerTotal then some (toNumber headerTotal) else total0
  let t ← getProp data "total"
  let total2 := if notNullish t then some (toNumber t) else total1
  let tc ← getProp data "totalCount"
  let total3 := if notNullish tc then some (toNumber tc) else total2
  let c ← getProp data "count"
  let total4 := if notNullish c then some (toNumber c) else total3
  let m ← getProp data "meta"
  let total5 ←
    if truthy m then do
      let mt ← getProp m "total"
      let mtc ← getProp m "totalCount"
      pure (if notNullish mt || notNullish mtc then some (toNumber (jsOr mt mtc)) else total4)
    else pure total4
  let tp ← getProp data "totalPages"
  let total6 :=
    if totalFalsy total5 && notNullish tp then some ((toNumber tp).mulInt pageSize)
    else total5
  pure total6

/-- Line 88: the value assigned to `state.totalItems`,
`Number.isFinite(total) ? total : null`. -/
def storedTotal : Option JSNum → Option Int
  | some (.fin n) => some n
  | _ => none

/-! ## Rendering -/

/-- The replacement that `escapeHtml` makes for one character: the entity of
`&`, `<`, `>`, the double quote and the single quote, the character itself
otherwise. -/
def escapeChar (c : Char) : List Char :=
  if c = '&' then "&amp;".data
  else if c = '<' then "&lt;".data
  else if c = '>' then "&gt;".data
  else if c = Char.ofNat 34 then "&quot;".data
  else if c = Char.ofNat 39 then "&#39;".data
  else [c]

/-- Lines 17-21: `escapeHtml(str)`, the global replacement over
`String(str || "")`. -/
def escapeHtml (str : JSVal) : String :=
  ⟨(toStr (jsOr str (.str ""))).data.flatMap escapeChar⟩

/-- An element created by `renderUsers`. -/
structure Card where
  className : String
  innerHTML : String
  deriving DecidableEq, Repr

/-- Content of the list region `usersEl`: the markup last assigned to
`innerHTML` and the elements appended after it. -/
structure UsersEl where
  innerHTML : String
  children : List Card
  deriving DecidableEq, Repr

/-- The markup that `showLoading` assigns (lines 24-27). -/
def loadingHtml : String :=
  "\n      <div class=\"text-center py-4\">\n        <div class=\"spinner-border\" role=\"status\"><span class=\"visually-hidden\">Carregando...</span></div>\n      </div>"

/-- The placeholder of line 106. -/
def noUsersHtml : String :=
  "<div class=\"text-muted\">Nenhum usuário nesta página.</div>"

/-- Line 113: the display name of a record. -/
def userName (user : JSVal) : Except JSError JSVal := do
  let name ← getProp user "name"
  let fullName ← getProp user "fullName"
  let nome ← getProp user "nome"
  let username ← getProp user "username"
  let firstName ← getProp user "firstName"
  pure (jsOr (jsOr (jsOr (jsOr (jsOr name fullName) nome) username) firstName)
    (.str "(sem nome)"))

/-- Line 114: the e-mail of a record. -/
def userEmail (user : JSVal) : Except JSError JSVal := do
  let email ← getProp user "email"
  let mail ← getProp user "mail"
  let emailAddress ← getProp user "emailAddress"
  pure (jsOr (jsOr (jsOr email mail) emailAddress) (.str ""))

/-- Line 115: the id of a record. -/
def userId (user : JSVal) : Except JSError JSVal := do
  let id ← getProp user "id"
  let id2 ← getProp user "_id"
  pure (jsOr (jsOr id id2) (.str ""))

/-- The `h6` line of a card, empty when `email` is falsy (line 122). -/
def emailLine (email : JSVal) : String :=
  if truthy email then
    "<h6 class=\"card-subtitle mb-2 text-muted\">" ++ escapeHtml email ++ "</h6>"
  else ""

/-- The template of lines 119-125. -/
def cardHtml (name email id : JSVal) : String :=
  "\n        <div class=\"card-body\">\n          <h5 class=\"card-title\">" ++
    escapeHtml name ++ "</h5>\n          " ++ emailLine email ++
    "\n          <p class=\"card-text\"><small class=\"text-muted\">ID: " ++
    escapeHtml (.str (toStr id)) ++ "</small></p>\n        </div>\n      "

/-- The body of the `forEach` callback (lines 113-126): the card of one
record. -/
def renderCard (user : JSVal) : Except JSError Card := do
  let name ← userName user
  let email ← userEmail user
  let id ← userId user
  pure { className := "card mb-2", innerHTML := cardHtml name email id }

/-- The loop `users.forEach(...)` of lines 112-127: the cards in list order;
the first record that throws ends it. -/
def renderCards : List JSVal → Except JSError (List Card)
  | [] => pure []
  | user :: rest => do
    let card ← renderCard user
    let cards ← renderCards rest
    pure (card :: cards)

/-- Lines 102-128: `renderUsers(users)`, the new content of the list region.
A truthy value that is not an array has no `forEach`; it reaches the
placeholder only when its `length` is `0`. -/
def renderUsers (users : JSVal) : Except JSError UsersEl :=
  if !truthy users then pure { innerHTML := noUsersHtml, children := [] }
  else
    match users with
    | .arr [] => pure { innerHTML := noUsersHtml, children := [] }
    | .arr items => do
      let cards ← renderCards items
      pure { innerHTML := "", children := cards }
    | .obj props =>
      match lookupProp "length" props with
      | .num 0 => pure { innerHTML := noUsersHtml, children := [] }
      | _ => throw ⟨"users.forEach is not a function"⟩
    | _ => throw ⟨"users.forEach is not a function"⟩

/-- A control created by `createPageItem`; `page` and `disabled` are what
its click handler closes over. -/
structure PageItem where
  label : String
  page : Int
  disabled : Bool
  active : Bool
  deriving DecidableEq, Repr

/-- Line 146: the class of the `li`. -/
def PageItem.className (it : PageItem) : String :=
  "page-item" ++ (if it.disabled then " disabled" else "") ++
    (if it.active then " active" else "")

/-- Lines 144-158: `createPageItem(label, page, disabled, active)`. -/
def createPageItem (label : String) (page : Int) (disabled active : Bool) : PageItem :=
  { label := label, page := page, disabled := disabled, active := active }

/-- The test `state.totalItems && Number.isFinite(state.totalItems)`
(lines 136 and 170). -/
def hasTotal (state : PagingState) : Bool :=
  match state.totalItems with
  | some t => t != 0
  | none => false

/-- The value `Math.ceil(a / b)` for a positive divisor. -/
def ceilDiv (a b : Int) : Int := -((-a) / b)

/-- Lines 135-141: the variable `totalPages`. -/
def totalPages (state : PagingState) (currentPage : Int) : Int :=
  if hasTotal state then
    max 1 (ceilDiv (state.totalItems.getD 0) state.pageSize)
  else
    max 1 (currentPage + 2)

/-- Line 161: the Previous control. -/
def prevItem (currentPage : Int) : PageItem :=
  createPageItem "Anterior" (max 1 (currentPage - 1)) (currentPage == 1) false

/-- Lines 164-166: the numbered controls `1 .. totalPages`. -/
def numberItems (total currentPage : Int) : List PageItem :=
  (List.range total.toNat).map fun (i : Nat) =>
    createPageItem (intToStr ((i : Int) + 1)) ((i : Int) + 1) false
      (((i : Int) + 1) == currentPage)

/-- Lines 169-171: the Next control. -/
def nextItem (state : PagingState) (currentPage : Int) : PageItem :=
  let lastPage := totalPages state currentPage
  let nextDisabled := if hasTotal state then decide (currentPage ≥ lastPage) else false
  createPageItem "Próximo" (min lastPage (currentPage + 1)) nextDisabled false

/-- Lines 131-172: `renderPagination(currentPage)`, the new content of the
pagination region. -/
def renderPagination (state : PagingState) (currentPage : Int) : List PageItem :=
  prevItem currentPage ::
    (numberItems (totalPages state currentPage) currentPage ++ [nextItem state currentPage])

/-! ## The widget: state, regions and pending requests -/

/-- How a call of `fetch` settles: the promise rejects, or it resolves with a
response. -/
inductive FetchOutcome where
  | rejected (err : JSError)
  | resolved (r : Response)

/-- Everything the script owns: `state`, the two regions, the requests handed
to `fetch` that have not settled yet (oldest first) and what was passed to
`console.error`. -/
structure Widget where
  state : PagingState
  usersEl : UsersEl
  paginationEl : List PageItem
  pending : List Request
  logged : List JSError
  deriving DecidableEq

/-- The page before `DOMContentLoaded`: both regions empty. -/
def blankWidget : Widget :=
  { state := initialState, usersEl := { innerHTML := "", children := [] },
    paginationEl := [], pending := [], logged := [] }

/-- Lines 32-41: the synchronous part of `fetchUsers(page)` up to the first
`await`: the loading placeholder is shown and the request is issued. -/
def fetchUsersStart (w : Widget) (page : Int) : Widget :=
  { w with
    usersEl := { innerHTML := loadingHtml, children := [] },
    pending := w.pending ++ [buildRequest w.state page] }

/-- Lines 43-85: what the `try` block computes from a settled `fetch` before
it touches `state`: the value of `users` and of `total`. -/
def readResponse (state : PagingState) (o : FetchOutcome) :
    Except JSError (JSVal × Option JSNum) :=
  match o with
  | .rejected err => throw err
  | .resolved r => do
    if !r.ok then throw ⟨"Erro HTTP " ++ intToStr r.status⟩
    let data ← r.json
    let users ← extractUsers data
    let headerTotal := jsOr (headersGet r) (headersGet r)
    let total ← extractTotal headerTotal data state.pageSize
    pure (users, total)

/-- Lines 94-98: the `catch` block. -/
def showError (w : Widget) (err : JSError) : Widget :=
  { w with
    usersEl :=
      { innerHTML := "<div class=\"alert alert-danger\">Erro ao carregar usuários: " ++
          escapeHtml (.str err.message) ++ "</div>",
        children := [] },
    paginationEl := [],
    logged := w.logged ++ [err] }

/-- Lines 43-98: the rest of `fetchUsers` once its `fetch` has settled. The
assignment to `state.totalItems` (line 88) precedes the two renderers. -/
def fetchUsersSettle (w : Widget) (o : FetchOutcome) : Widget :=
  match readResponse w.state o with
  | .error err => showError w err
  | .ok (users, total) =>
    let w1 := { w with state := { w.state with totalItems := storedTotal total } }
    match renderUsers users with
    | .error err => showError w1 err
    | .ok el =>
      { w1 with
        usersEl := el,
        paginationEl := renderPagination w1.state w1.state.currentPage }

/-- Lines 175-177: `gotoPage(page)` up to the `await`. -/
def gotoPage (w : Widget) (page : Int) : Widget :=
  fetchUsersStart { w with state := { w.state with currentPage := page } } page

/-- Lines 151-155: the click handler of a control. -/
def clickItem (w : Widget) (it : PageItem) : Widget :=
  if it.disabled || it.page == w.state.currentPage then w else gotoPage w it.page

/-- What can happen to the widget: a click on the `i`-th control of the
pagination region, or the `i`-th pending request settles. -/
inductive Event where
  | click (i : Nat)
  | settle (i : Nat) (o : FetchOutcome)

/-- One event. A click on a missing control or the settling of a missing
request changes nothing. -/
def step (w : Widget) : Event → Widget
  | .click i =>
    match w.paginationEl.get? i with
    | some it => clickItem w it
    | none => w
  | .settle i o =>
    match w.pending.get? i with
    | some _ => fetchUsersSettle { w with pending := w.pending.eraseIdx i } o
    | none => w

/-- Line 183: the handler of `DOMContentLoaded` up to its `await`. -/
def boot : Widget := fetchUsersStart blankWidget blankWidget.state.currentPage

/-- Run a list of events from a widget. -/
def run (w : Widget) : List Event → Widget
  | [] => w
  | e :: es => run (step w e) es

/-- The widgets the page can be in. -/
inductive Reachable : Widget → Prop where
  | boot : Reachable boot
  | step {w : Widget} (e : Event) : Reachable w → Reachable (step w e)

/-! ## The extraction rules as the specification words them -/

/-- The user list of the specification: the body itself when it is an array,
else the first array among the fields `users`, `data`, `results`, `items`,
else the first array among the own values, else the empty list. -/
def specUserList (data : JSVal) : JSVal :=
  if isArray data then data
  else
    match (["users", "data", "results", "items"].map (propOf data)).find? isArray with
    | some v => v
    | none =>
      match objectValues data with
      | .ok values => (values.find? isArray).getD (.arr [])
      | .error _ => .arr []

/-- The numeric value of the last present (non-null) field in the order
`total`, `totalCount`, `count`; `none` when none of them is present. -/
def lastPresentTotal (data : JSVal) : Option JSNum :=
  (((["total", "totalCount", "count"].map (propOf data)).filter notNullish).getLast?).map
    toNumber

/-- A value so far that is unset or falsy: no value, zero, or `NaN`. -/
def unsetOrFalsy : Option JSNum → Bool
  | none => true
  | some (.fin n) => n == 0
  | some .nan => true
  | some _ => false

/-- The total of a body without `meta` and without header, in the words of
the specification: the last present top-level field, replaced by
`totalPages * pageSize` when it is unset or falsy and `totalPages` is
present. -/
def specTopLevelTotal (data : JSVal) (pageSize : Int) : Option JSNum :=
  if unsetOrFalsy (lastPresentTotal data) && notNullish (propOf data "totalPages") then
    some ((toNumber (propOf data "totalPages")).mulInt pageSize)
  else lastPresentTotal data

/-! ## Auxiliary definitions of the proofs -/

/-- The variable `total` after lines 70-85, as one expression. -/
def totalOf (hdr data : JSVal) (ps : Int) : Option JSNum :=
  let t4 : Option JSNum :=
    if notNullish (propOf data "count") then some (toNumber (propOf data "count"))
    else if notNullish (propOf data "totalCount") then
      some (toNumber (propOf data "totalCount"))
    else if notNullish (propOf data "total") then some (toNumber (propOf data "total"))
    else if truthy hdr then some (toNumber hdr) else none
  let m := propOf data "meta"
  let t5 : Option JSNum :=
    if truthy m && (notNullish (propOf m "total") || notNullish (propOf m "totalCount")) then
      some (toNumber (jsOr (propOf m "total") (propOf m "totalCount")))
    else t4
  if totalFalsy t5 && notNullish (propOf data "totalPages") then
    some ((toNumber (propOf data "totalPages")).mulInt ps)
  else t5

/-- The invariant of the widget. -/
def Inv (w : Widget) : Prop :=
  w.state.pageSize = 10 ∧ 1 ≤ w.state.currentPage ∧
  (∀ it ∈ w.paginationEl, 1 ≤ it.page) ∧
  (w.pending = [] →
    w.paginationEl = [] ∨ w.paginationEl = renderPagination w.state w.state.currentPage)

/-- A response with success status, no header and the empty array as body. -/
def emptyPage : Response :=
  { ok := true, status := 200, xTotalCount := none, json := .ok (.arr []) }

/-- The widget after the first page has loaded with an empty list and an
unknown total. -/
def firstPageLoaded : Widget :=
  run boot [.settle 0 (.resolved emptyPage)]

/-- The widget after the first page has loaded and the control "2" was
clicked: page 2 is being fetched, the controls of page 1 are still shown. -/
def loadingSecondPage : Widget :=
  run boot [.settle 0 (.resolved emptyPage), .click 2]

/-- The tails of the five entities, after their `&`. -/
def entityTails : List (List Char) :=
  ["amp;".data, "lt;".data, "gt;".data, "quot;".data, "#39;".data]

/-- The first truthy value of a list of candidates, a default when there is
none. -/
def firstTruthy (vals : List JSVal) (dflt : JSVal) : JSVal :=
  (vals.find? truthy).getD dflt

/-- The card the amended claim C10 describes for one record. -/
def specCard (u : JSVal) : Card :=
  { className := "card mb-2",
    innerHTML :=
      "\n        <div class=\"card-body\">\n          <h5 class=\"card-title\">" ++
      escapeHtml (firstTruthy
        (["name", "fullName", "nome", "username", "firstName"].map (propOf u))
        (.str "(sem nome)")) ++
      "</h5>\n          " ++
      (if (["email", "mail", "emailAddress"].map (propOf u)).any truthy then
        "<h6 class=\"card-subtitle mb-2 text-muted\">" ++
          escapeHtml (firstTruthy (["email", "mail", "emailAddress"].map (propOf u))
            (.str "")) ++ "</h6>"
       else "") ++
      "\n          <p class=\"card-text\"><small class=\"text-muted\">ID: " ++
      escapeHtml (.str (toStr (firstTruthy (["id", "_id"].map (propOf u)) (.str "")))) ++
      "</small></p>\n        </div>\n      " }

/-- The three ways a fetch fails (the promise rejects, the status is not a
success status, the body is not valid JSON), each with the error that reaches
the `catch` block. -/
inductive FetchFails : FetchOutcome → JSError → Prop where
  | rejected (err : JSError) : FetchFails (.rejected err) err
  | status (r : Response) :
      r.ok = false → FetchFails (.resolved r) ⟨"Erro HTTP " ++ intToStr r.status⟩
  | json (r : Response) (err : JSError) :
      r.ok = true → r.json = .error err → FetchFails (.resolved r) err

/-- A response with success status whose JSON body is `null`. -/
def nullBody : Response :=
  { ok := true, status := 200, xTotalCount := none, json := .ok .null }

/-- A response with status 500. -/
def serverError : Response :=
  { ok := false, status := 500, xTotalCount := none, json := .error ⟨"Unexpected token"⟩ }

/-- A response with success status and the body `{total: 25}`. -/
def totalIs25 : Response :=
  { ok := true, status := 200, xTotalCount := none, json := .ok (.obj [("total", .num 25)]) }

/-- The widget after the first page has loaded and revealed a total of 25. -/
def totalLearned : Widget :=
  run boot [.settle 0 (.resolved totalIs25)]

/-- Replace every occurrence of `pat` by `rep`, scanning from the left;
`skip` counts the characters of a match that are still to be passed over. -/
def replaceAux (pat rep : List Char) : Nat → List Char → List Char
  | _, [] => []
  | skip + 1, _ :: cs => replaceAux pat rep skip cs
  | 0, c :: cs =>
    if pat.isPrefixOf (c :: cs) then rep ++ replaceAux pat rep (pat.length - 1) cs
    else c :: replaceAux pat rep 0 cs

/-- Replace every occurrence of the string `pat` by the string `rep`. -/
def replaceAll (pat rep : String) (cs : List Char) : List Char :=
  replaceAux pat.data rep.data 0 cs

/-- The reverse replacement of claim C15: the entities `&lt;`, `&gt;`,
`&quot;`, `&#39;` are replaced by their characters, and then `&amp;`. -/
def unescapeHtml (s : String) : String :=
  ⟨replaceAll "&amp;" "&"
    (replaceAll "&#39;" "\x27"
      (replaceAll "&quot;" "\x22"
        (replaceAll "&gt;" ">"
          (replaceAll "&lt;" "<" s.data))))⟩

/-- The replacement of `escapeHtml` restricted to the characters listed in
`still`; the other characters stay as they are. -/
def escapeOnly (still : List Char) (c : Char) : List Char :=
  if c ∈ still then escapeChar c else [c]

/-! ## Basic facts about property reads -/

theorem getProp_eq_ok {v : JSVal} (h : isNullish v = false) (key : String) :
    getProp v key = .ok (propOf v key) := by
  cases v <;> simp_all [isNullish, getProp]

theorem isNullish_of_truthy {v : JSVal} (h : truthy v = true) : isNullish v = false := by
  cases v <;> simp_all [isNullish, truthy]

theorem objectValues_ok {v : JSVal} (h : isNullish v = false) :
    ∃ values, objectValues v = .ok values := by
  cases v <;> simp_all [isNullish, objectValues]

theorem isArray_findArray (values : List JSVal) :
    jsOr (findArray values) (.arr []) = (values.find? isArray).getD (.arr []) := by
  unfold findArray
  cases hf : values.find? isArray with
  | none => simp [jsOr, truthy]
  | some v =>
    have hv : isArray v = true := List.find?_some hf
    cases v <;> simp_all [isArray, jsOr, truthy]

/-- On every body other than `null` and `undefined` the list extraction of
lines 52-67 succeeds and yields the list of the specification. -/
theorem extractUsers_eq_spec {data : JSVal} (h : isNullish data = false) :
    extractUsers data = .ok (specUserList data) := by
  obtain ⟨values, hv⟩ := objectValues_ok h
  simp only [extractUsers, specUserList, getProp_eq_ok h, hv, bind, Except.bind, pure,
    Except.pure, List.map, List.find?, isArray_findArray]
  by_cases h0 : isArray data = true
  · simp [h0]
  · by_cases h1 : isArray (propOf data "users") = true
    · simp [h0, h1]
    · by_cases h2 : isArray (propOf data "data") = true
      · simp [h0, h1, h2]
      · by_cases h3 : isArray (propOf data "results") = true
        · simp [h0, h1, h2, h3]
        · by_cases h4 : isArray (propOf data "items") = true
          · simp [h0, h1, h2, h3, h4]
          · simp [h0, h1, h2, h3, h4]

theorem extractTotal_eq {data : JSVal} (h : isNullish data = false) (hdr : JSVal)
    (ps : Int) : extractTotal hdr data ps = .ok (totalOf hdr data ps) := by
  simp only [extractTotal, totalOf, getProp_eq_ok h, bind, Except.bind, pure, Except.pure]
  by_cases hm : truthy (propOf data "meta") = true
  · simp [hm, getProp_eq_ok (isNullish_of_truthy hm)]
  · simp [hm]

/-- A response with a success status and a parsed body other than `null`:
line 88 stores the finite part of `total`, whatever the renderers do. -/
theorem settle_totalItems (w : Widget) (r : Response) (data : JSVal)
    (hok : r.ok = true) (hjson : r.json = .ok data) (hdata : isNullish data = false) :
    (fetchUsersSettle w (.resolved r)).state.totalItems =
      storedTotal (totalOf (jsOr (headersGet r) (headersGet r)) data w.state.pageSize) := by
  simp only [fetchUsersSettle, readResponse, hok, hjson, extractUsers_eq_spec hdata,
    extractTotal_eq hdata, bind, Except.bind, pure, Except.pure]
  simp only [Bool.not_true, Bool.false_eq_true, if_false]
  cases renderUsers (specUserList data) <;> simp [showError]

/-! ## Invariants of the reachable widgets -/

theorem prevItem_page_pos (c : Int) : 1 ≤ (prevItem c).page := by
  simp [prevItem, createPageItem]

theorem totalPages_pos (s : PagingState) (c : Int) : 1 ≤ totalPages s c := by
  unfold totalPages
  split <;> exact le_max_left _ _

theorem nextItem_page_pos (s : PagingState) (c : Int) (hc : 1 ≤ c) :
    1 ≤ (nextItem s c).page := by
  have h := totalPages_pos s c
  simp only [nextItem, createPageItem]
  exact le_min h (by omega)

theorem numberItems_page_pos (n c : Int) : ∀ it ∈ numberItems n c, 1 ≤ it.page := by
  intro it hit
  rw [numberItems, List.mem_map] at hit
  obtain ⟨i, _, rfl⟩ := hit
  simp only [createPageItem]
  omega

theorem renderPagination_page_pos (s : PagingState) (c : Int) (hc : 1 ≤ c) :
    ∀ it ∈ renderPagination s c, 1 ≤ it.page := by
  intro it hit
  rw [renderPagination, List.mem_cons, List.mem_append, List.mem_singleton] at hit
  rcases hit with rfl | hit | rfl
  · exact prevItem_page_pos c
  · exact numberItems_page_pos _ _ it hit
  · exact nextItem_page_pos s c hc

/-- Shape of a settled `fetchUsers`: only `totalItems` can change in `state`,
the pagination region is either cleared or rendered afresh from the new state,
and no request is issued. -/
theorem fetchUsersSettle_shape (w : Widget) (o : FetchOutcome) :
    ∃ ti : Option Int,
      (fetchUsersSettle w o).state = { w.state with totalItems := ti } ∧
      ((fetchUsersSettle w o).paginationEl = [] ∨
        (fetchUsersSettle w o).paginationEl =
          renderPagination { w.state with totalItems := ti } w.state.currentPage) ∧
      (fetchUsersSettle w o).pending = w.pending := by
  unfold fetchUsersSettle
  cases readResponse w.state o with
  | error err => exact ⟨w.state.totalItems, by simp [showError]⟩
  | ok res =>
    obtain ⟨users, total⟩ := res
    cases hr : renderUsers users with
    | error err => exact ⟨storedTotal total, by simp [hr, showError]⟩
    | ok el => exact ⟨storedTotal total, by simp [hr]⟩

theorem inv_boot : Inv boot := by
  refine ⟨rfl, by decide, ?_, ?_⟩
  · intro it hit
    simp [boot, fetchUsersStart, blankWidget] at hit
  · intro h
    simp [boot, fetchUsersStart, blankWidget] at h

theorem inv_clickItem (w : Widget) (it : PageItem) (hw : Inv w) (hit : it ∈ w.paginationEl) :
    Inv (clickItem w it) := by
  unfold clickItem
  split
  · exact hw
  · obtain ⟨h1, _, h3, _⟩ := hw
    refine ⟨h1, h3 it hit, h3, ?_⟩
    intro h
    simp [gotoPage, fetchUsersStart] at h

theorem inv_settle (w : Widget) (i : Nat) (o : FetchOutcome) (hw : Inv w) :
    Inv (fetchUsersSettle { w with pending := w.pending.eraseIdx i } o) := by
  obtain ⟨h1, h2, h3, _⟩ := hw
  obtain ⟨ti, hs, hp, _⟩ := fetchUsersSettle_shape { w with pending := w.pending.eraseIdx i } o
  refine ⟨by rw [hs]; exact h1, by rw [hs]; exact h2, ?_, ?_⟩
  · rcases hp with hp | hp
    · rw [hp]; simp
    · rw [hp]; exact renderPagination_page_pos _ _ h2
  · intro _
    rcases hp with hp | hp
    · exact Or.inl hp
    · right
      rw [hp, hs]

theorem inv_step (w : Widget) (e : Event) (hw : Inv w) : Inv (step w e) := by
  cases e with
  | click i =>
    simp only [step]
    cases hg : w.paginationEl.get? i with
    | none => exact hw
    | some it => exact inv_clickItem w it hw (List.get?_mem hg)
  | settle i o =>
    simp only [step]
    cases hg : w.pending.get? i with
    | none => exact hw
    | some _ => exact inv_settle w i o hw

theorem inv_of_reachable {w : Widget} (hw : Reachable w) : Inv w := by
  induction hw with
  | boot => exact inv_boot
  | step e _ ih => exact inv_step _ e ih

/-! ## Claims -/

/-- Claim C1 (list extraction), at the body `null`: the read of `data.users`
throws, so no list reaches `renderUsers`; the request ends in the error alert
instead of the empty list the claim asks for. -/
theorem list_extraction_null_body :
    extractUsers .null = .error (readOfNullish "null" "users") ∧
    (step boot (.settle 0 (.resolved
      { ok := true, status := 200, xTotalCount := none, json := .ok .null }))).usersEl =
      { innerHTML := "<div class=\"alert alert-danger\">Erro ao carregar usuários: Cannot read properties of null (reading &#39;users&#39;)</div>",
        children := [] } ∧
    renderUsers (.arr []) = .ok { innerHTML := noUsersHtml, children := [] } := by
  refine ⟨rfl, ?_, rfl⟩
  decide

/-- Claim C2 as stated fails: with header `X-Total-Count: 42` and body
`{total: 7}` the stored total is 7, not the header value 42. -/
theorem header_total_does_not_win :
    toNumber (.str "42") = .fin 42 ∧
    (step boot (.settle 0 (.resolved
      { ok := true, status := 200, xTotalCount := some "42",
        json := .ok (.obj [("total", .num 7)]) }))).state.totalItems = some 7 ∧
    ¬ (step boot (.settle 0 (.resolved
      { ok := true, status := 200, xTotalCount := some "42",
        json := .ok (.obj [("total", .num 7)]) }))).state.totalItems = some 42 := by
  decide

/-- Claim C2, amended: when a successful response has a body whose field
`total` is the number `t`, with no `totalCount`, `count`, `meta.total` or
`meta.totalCount` and, when `t = 0`, no `totalPages`, the total stored in
`totalItems` is `t`, whatever `X-Total-Count` header the response carries:
the body wins over the header. -/
theorem body_total_wins_over_header (w : Widget) (r : Response)
    (props : List (String × JSVal)) (t : Int)
    (hok : r.ok = true) (hjson : r.json = .ok (.obj props))
    (ht : lookupProp "total" props = .num t)
    (htc : notNullish (lookupProp "totalCount" props) = false)
    (hc : notNullish (lookupProp "count" props) = false)
    (hmt : notNullish (propOf (lookupProp "meta" props) "total") = false)
    (hmtc : notNullish (propOf (lookupProp "meta" props) "totalCount") = false)
    (htp : t ≠ 0 ∨ notNullish (lookupProp "totalPages" props) = false) :
    (fetchUsersSettle w (.resolved r)).state.totalItems = some t := by
  rw [settle_totalItems w r (.obj props) hok hjson rfl]
  have e : ∀ k, propOf (.obj props) k = lookupProp k props := fun _ => rfl
  have hn : notNullish (.num t) = true := rfl
  have hnum : toNumber (.num t) = .fin t := rfl
  simp only [totalOf, e, ht, htc, hc, hmt, hmtc, hn, hnum, Bool.or_self,
    Bool.and_false, Bool.false_eq_true, if_false, if_true]
  rcases htp with h0 | h0
  · simp [totalFalsy, JSNum.truthy, h0, storedTotal]
  · simp [h0, storedTotal]

/-- Instance of `body_total_wins_over_header`: header 42, body `{total: 7}`. -/
theorem body_total_wins_over_header_witness :
    (fetchUsersSettle boot (.resolved
      { ok := true, status := 200, xTotalCount := some "42",
        json := .ok (.obj [("total", .num 7)]) })).state.totalItems = some 7 :=
  body_total_wins_over_header boot _ [("total", .num 7)] 7 rfl rfl rfl
    (by decide) (by decide) (by decide) (by decide) (Or.inl (by decide))

theorem totalFalsy_eq_unsetOrFalsy (x : Option JSNum) : totalFalsy x = unsetOrFalsy x := by
  rcases x with _ | x
  · rfl
  · cases x <;> simp [totalFalsy, unsetOrFalsy, JSNum.truthy, bne]

theorem propOf_of_not_obj {m : JSVal} (h : ∀ ps, m ≠ .obj ps) (key : String) :
    propOf m key = .undefined := by
  cases m <;> simp_all [propOf]

/-- The top-level total on every parsed body other than `null`: for a
successful response without `X-Total-Count` header whose body has no
`meta` object, the total is the numeric value of the last present field among
`total`, `totalCount`, `count`, replaced by `totalPages * pageSize` when that
value is unset or falsy and `totalPages` is present; `totalItems` receives it
exactly when it is a finite number and is unknown otherwise. Falsy covers zero
and `NaN`, the value of a field that is not numeric. -/
theorem total_from_top_level_fields (w : Widget) (r : Response) (data : JSVal)
    (hok : r.ok = true) (hjson : r.json = .ok data) (hdata : isNullish data = false)
    (hhdr : r.xTotalCount = none) (hmeta : ∀ ps, propOf data "meta" ≠ .obj ps) :
    (fetchUsersSettle w (.resolved r)).state.totalItems =
      match specTopLevelTotal data w.state.pageSize with
      | some (.fin n) => some n
      | _ => none := by
  rw [settle_totalItems w r data hok hjson hdata]
  have hh : jsOr (headersGet r) (headersGet r) = .null := by
    simp [headersGet, hhdr, jsOr]
  have hlast :
      (if notNullish (propOf data "count") then some (toNumber (propOf data "count"))
        else if notNullish (propOf data "totalCount") then
          some (toNumber (propOf data "totalCount"))
        else if notNullish (propOf data "total") then some (toNumber (propOf data "total"))
        else if truthy JSVal.null then some (toNumber JSVal.null) else none) =
        lastPresentTotal data := by
    unfold lastPresentTotal
    cases h1 : notNullish (propOf data "total") <;>
      cases h2 : notNullish (propOf data "totalCount") <;>
        cases h3 : notNullish (propOf data "count") <;>
          simp [List.filter, h1, h2, h3, truthy]
  have hund : notNullish JSVal.undefined = false := rfl
  simp only [totalOf, hh, hlast, propOf_of_not_obj hmeta, hund, Bool.or_self, Bool.and_false,
    Bool.false_eq_true, if_false, specTopLevelTotal, totalFalsy_eq_unsetOrFalsy]
  generalize (if (unsetOrFalsy (lastPresentTotal data) &&
      notNullish (propOf data "totalPages")) = true then
        some ((toNumber (propOf data "totalPages")).mulInt w.state.pageSize)
      else lastPresentTotal data) = x
  rcases x with _ | x
  · rfl
  · cases x <;> rfl

/-- Instances of `total_from_top_level_fields`: the body `{totalPages: 3}`
stores 30. -/
theorem total_from_top_level_fields_witness :
    (fetchUsersSettle boot (.resolved
      { ok := true, status := 200, xTotalCount := none,
        json := .ok (.obj [("totalPages", .num 3)]) })).state.totalItems = some 30 :=
  (total_from_top_level_fields boot
      { ok := true, status := 200, xTotalCount := none,
        json := .ok (.obj [("totalPages", .num 3)]) }
      (.obj [("totalPages", .num 3)]) rfl rfl rfl rfl
      (fun ps h => by simp [propOf, lookupProp] at h)).trans (by decide)

/-- The two rounding bounds are the powers of two they stand for. -/
theorem rounding_bounds :
    overflowBound = 2 ^ 1024 - 2 ^ 970 ∧ underflowBound = 2 ^ 1075 := by
  constructor <;> norm_num [overflowBound, underflowBound]

/-- The conversion `Number(s)` on sample strings: decimal literals with sign,
fraction and exponent, radix literals, white space, the infinities, and
strings that are not numeric. -/
theorem stringToNumber_examples :
    stringToNumber "42" = .fin 42 ∧ stringToNumber " 42\n" = .fin 42 ∧
    stringToNumber "-7" = .fin (-7) ∧ stringToNumber "+7" = .fin 7 ∧
    stringToNumber "1e3" = .fin 1000 ∧ stringToNumber "12.0" = .fin 12 ∧
    stringToNumber "5." = .fin 5 ∧ stringToNumber ".5e1" = .fin 5 ∧
    stringToNumber "10e-1" = .fin 1 ∧ stringToNumber "0x10" = .fin 16 ∧
    stringToNumber "0b11" = .fin 3 ∧ stringToNumber "0o17" = .fin 15 ∧
    stringToNumber "" = .fin 0 ∧ stringToNumber "Infinity" = .posInf ∧
    stringToNumber "-Infinity" = .negInf ∧ stringToNumber "abc" = .nan ∧
    stringToNumber "-0x10" = .nan ∧ stringToNumber "1e" = .nan ∧
    stringToNumber "1 2" = .nan ∧ stringToNumber "." = .nan := by
  decide

/-- The top-level total on sample bodies: `{total: 0, totalPages: 3}` stores
30, `{total: "1e3"}` stores 1000, `{total: "0x10"}` stores 16,
`{total: 7, count: 9}` stores 9, and `{total: "abc"}` and
`{total: "Infinity"}` leave the total unknown. -/
theorem top_level_total_examples :
    (fetchUsersSettle boot (.resolved
      { ok := true, status := 200, xTotalCount := none,
        json := .ok (.obj [("total", .num 0), ("totalPages", .num 3)]) })).state.totalItems
      = some 30 ∧
    (fetchUsersSettle boot (.resolved
      { ok := true, status := 200, xTotalCount := none,
        json := .ok (.obj [("total", .str "1e3")]) })).state.totalItems = some 1000 ∧
    (fetchUsersSettle boot (.resolved
      { ok := true, status := 200, xTotalCount := none,
        json := .ok (.obj [("total", .str "0x10")]) })).state.totalItems = some 16 ∧
    (fetchUsersSettle boot (.resolved
      { ok := true, status := 200, xTotalCount := none,
        json := .ok (.obj [("total", .num 7), ("count", .num 9)]) })).state.totalItems
      = some 9 ∧
    (fetchUsersSettle totalLearned (.resolved
      { ok := true, status := 200, xTotalCount := none,
        json := .ok (.obj [("total", .str "abc")]) })).state.totalItems = none ∧
    (fetchUsersSettle totalLearned (.resolved
      { ok := true, status := 200, xTotalCount := none,
        json := .ok (.obj [("total", .str "Infinity")]) })).state.totalItems = none := by
  decide

/-- Claim C3, at the body `null`: after `{total: 25}` was stored, a successful
response without header whose body is `null` has no top-level field and no
`meta`, so the claim asks for an unknown total; the read of `data.users`
(line 55) throws before line 88 is reached, and `totalItems` stays 25. -/
theorem total_kept_on_null_body :
    totalLearned.state.totalItems = some 25 ∧
    specTopLevelTotal .null 10 = none ∧
    (run totalLearned [.click 2, .settle 0 (.resolved nullBody)]).state.totalItems
      = some 25 ∧
    (run totalLearned [.click 2, .settle 0 (.resolved nullBody)]).logged =
      [readOfNullish "null" "users"] := by
  decide

/-- Claim C4 (total from `meta`), at the value 0: with the body
`{meta: {total: 0}}` the variable `total` becomes `NaN` and `totalItems` is
left unknown instead of 0, and with `{meta: {total: 0, totalCount: 5}}` the
stored total is 5 instead of 0; the top-level field of `{total: 0}` does store
0. -/
theorem meta_total_zero_is_lost :
    extractTotal .null (.obj [("meta", .obj [("total", .num 0)])]) 10 = .ok (some .nan) ∧
    (step boot (.settle 0 (.resolved
      { ok := true, status := 200, xTotalCount := none,
        json := .ok (.obj [("meta", .obj [("total", .num 0)])]) }))).state.totalItems
      = none ∧
    (step boot (.settle 0 (.resolved
      { ok := true, status := 200, xTotalCount := none,
        json := .ok (.obj [("meta", .obj [("total", .num 0), ("totalCount", .num 5)])])
      }))).state.totalItems = some 5 ∧
    (step boot (.settle 0 (.resolved
      { ok := true, status := 200, xTotalCount := none,
        json := .ok (.obj [("total", .num 0)]) }))).state.totalItems = some 0 := by
  refine ⟨rfl, ?_, ?_, ?_⟩ <;> decide

/-- Claim C5: in every reachable widget and for every page `p ≥ 1`,
`fetchUsers(p)` issues exactly one request, with `offset = (p - 1) * 10` and
`limit = 10` in its query string and the header `Accept: application/json`,
whatever `currentPage` and `totalItems` are. -/
theorem request_offset_limit (w : Widget) (hw : Reachable w) (p : Int) (hp : 1 ≤ p) :
    (fetchUsersStart w p).pending = w.pending ++
      [{ url := "/api/users?offset=" ++ intToStr ((p - 1) * 10) ++ "&limit=10",
         accept := "application/json",
         offset := (p - 1) * 10,
         limit := 10 }] ∧
    0 ≤ (p - 1) * 10 := by
  have h10 : w.state.pageSize = 10 := (inv_of_reachable hw).1
  have hs : intToStr 10 = "10" := by decide
  refine ⟨?_, by omega⟩
  simp only [fetchUsersStart, buildRequest, h10, hs, String.append_assoc]
  rfl

/-- Instance of `request_offset_limit`: page 3 after the first load. -/
theorem request_offset_limit_witness :
    (fetchUsersStart boot 3).pending = boot.pending ++
      [{ url := "/api/users?offset=" ++ intToStr ((3 - 1) * 10) ++ "&limit=10",
         accept := "application/json",
         offset := (3 - 1) * 10,
         limit := 10 }] ∧
    (0 : Int) ≤ (3 - 1) * 10 :=
  request_offset_limit boot Reachable.boot 3 (by decide)

theorem ceilDiv_ten (a : Int) : ceilDiv a 10 = ⌈(a : ℚ) / 10⌉ := by
  have h := Rat.floor_intCast_div_natCast (-a) 10
  have e : (a : ℚ) / 10 = -(((-a : ℤ) : ℚ) / ((10 : ℕ) : ℚ)) := by
    push_cast
    ring
  rw [e, Int.ceil_neg, h]
  simp [ceilDiv]

/-- The variable `totalPages` in closed form, for the page size 10. -/
theorem totalPages_eq (s : PagingState) (c : Int) (hps : s.pageSize = 10) (hc : 1 ≤ c) :
    totalPages s c =
      match s.totalItems with
      | some t => if t = 0 then c + 2 else max 1 ⌈(t : ℚ) / 10⌉
      | none => c + 2 := by
  have hfall : max 1 (c + 2) = c + 2 := max_eq_right (by omega)
  unfold totalPages hasTotal
  rcases hs : s.totalItems with _ | t
  · simpa using hfall
  · by_cases ht : t = 0
    · simpa [ht] using hfall
    · simp [ht, hps, ceilDiv_ten]

theorem numberItems_length (n c : Int) : (numberItems n c).length = n.toNat := by
  simp [numberItems]

theorem numberItems_getElem? (n c : Int) (i : Nat) (hi : i < n.toNat) :
    (numberItems n c)[i]? =
      some { label := intToStr ((i : Int) + 1), page := (i : Int) + 1, disabled := false,
             active := decide ((i : Int) + 1 = c) } := by
  simp [numberItems, createPageItem, List.getElem?_range hi, beq_eq_decide]

/-- Claim C6, at a known total of 0: after the body `{total: 0}` the state
holds `totalItems = 0`; the claim asks for `max(1, ceil(0 / 10)) = 1`
numbered control, and `renderPagination(1)` renders the three controls 1, 2, 3
of the branch that lines 134 and 139 reserve for an unknown total, because
the test of line 136 takes the stored 0 for no total. -/
theorem zero_total_renders_fallback_pages :
    (step boot (.settle 0 (.resolved
      { ok := true, status := 200, xTotalCount := none,
        json := .ok (.obj [("total", .num 0)]) }))).state =
      { currentPage := 1, pageSize := 10, totalItems := some 0 } ∧
    max 1 ⌈((0 : Int) : ℚ) / 10⌉ = 1 ∧
    totalPages { currentPage := 1, pageSize := 10, totalItems := some 0 } 1 = 3 ∧
    (renderPagination { currentPage := 1, pageSize := 10, totalItems := some 0 } 1).map
      (fun it => (it.label, it.active)) =
      [("Anterior", false), ("1", true), ("2", false), ("3", false), ("Próximo", false)] := by
  refine ⟨by decide, by simp, by decide, by decide⟩

/-- The numbered controls for every stored total other than 0: for `c ≥ 1`
(page size 10), `renderPagination(c)` renders, between
the Previous and the Next control, one numbered control for each page
`1 .. totalPages` in ascending order, none of them disabled and the one whose
page equals `c` (and no other) active, where
`totalPages = max(1, ceil(totalItems / 10))` when `totalItems` is known and
`totalPages = c + 2` when it is unknown. -/
theorem numbered_controls_nonzero (s : PagingState) (c : Int) (hps : s.pageSize = 10)
    (hc : 1 ≤ c) (hz : s.totalItems ≠ some 0) :
    ∃ N : Nat,
      (N : Int) =
        (match s.totalItems with
         | some t => max 1 ⌈(t : ℚ) / 10⌉
         | none => c + 2) ∧
      (renderPagination s c).length = N + 2 ∧
      ∀ i : Nat, i < N →
        (renderPagination s c)[i + 1]? =
          some { label := intToStr ((i : Int) + 1), page := (i : Int) + 1, disabled := false,
                 active := decide ((i : Int) + 1 = c) } := by
  have hpos := totalPages_pos s c
  have hN : ((totalPages s c).toNat : Int) = totalPages s c := Int.toNat_of_nonneg (by omega)
  refine ⟨(totalPages s c).toNat, ?_, ?_, ?_⟩
  · rw [hN, totalPages_eq s c hps hc]
    rcases hs : s.totalItems with _ | t
    · rfl
    · have ht : t ≠ 0 := fun h => hz (by rw [hs, h])
      simp [ht]
  · simp [renderPagination, numberItems_length]
  · intro i hi
    rw [renderPagination, List.getElem?_cons_succ,
      List.getElem?_append_left (by rw [numberItems_length]; exact hi)]
    exact numberItems_getElem? _ _ i hi

/-- The page counts of the specification's examples: a total of 25 gives the
controls 1, 2, 3, an unknown total on page 2 gives 1, 2, 3, 4. -/
theorem numbered_controls_examples :
    (renderPagination { currentPage := 2, pageSize := 10, totalItems := some 25 } 2).map
      (fun it => (it.label, it.active)) =
      [("Anterior", false), ("1", false), ("2", true), ("3", false), ("Próximo", false)] ∧
    (renderPagination { currentPage := 2, pageSize := 10, totalItems := none } 2).map
      (fun it => (it.label, it.active)) =
      [("Anterior", false), ("1", false), ("2", true), ("3", false), ("4", false),
        ("Próximo", false)] ∧
    max 1 ⌈((25 : Int) : ℚ) / 10⌉ = 3 := by
  refine ⟨by decide, by decide, ?_⟩
  have h : ⌈((25 : Int) : ℚ) / 10⌉ = 3 := by
    rw [Int.ceil_eq_iff]
    constructor <;> norm_num
  rw [h]
  rfl

/-- Claim C7, at a known total of 0: after the body `{total: 0}` the state
holds `totalItems = 0` on page 1; the claim's `totalPages` is
`max(1, ceil(0 / 10)) = 1`, so Next has to be disabled (`1 ≥ 1`) with target
`min(1, 2) = 1`; `renderPagination(1)` renders Next enabled with target 2, and
a click on it requests page 2. The test of line 170 takes the stored 0 for no
total. -/
theorem zero_total_next_stays_enabled :
    (step boot (.settle 0 (.resolved
      { ok := true, status := 200, xTotalCount := none,
        json := .ok (.obj [("total", .num 0)]) }))).state =
      { currentPage := 1, pageSize := 10, totalItems := some 0 } ∧
    max 1 ⌈((0 : Int) : ℚ) / 10⌉ = 1 ∧
    min (max 1 ⌈((0 : Int) : ℚ) / 10⌉) (1 + 1) = 1 ∧
    (renderPagination { currentPage := 1, pageSize := 10, totalItems := some 0 } 1).getLast? =
      some { label := "Próximo", page := 2, disabled := false, active := false } ∧
    (step boot (.settle 0 (.resolved
      { ok := true, status := 200, xTotalCount := none,
        json := .ok (.obj [("total", .num 0)]) }))).paginationEl[4]? =
      some { label := "Próximo", page := 2, disabled := false, active := false } ∧
    (run boot [.settle 0 (.resolved
      { ok := true, status := 200, xTotalCount := none,
        json := .ok (.obj [("total", .num 0)]) }), .click 4]).pending.map
      (fun req => req.offset) = [10] := by
  refine ⟨by decide, by simp, by simp, by decide, by decide, by decide⟩

/-- The first and the last control for every stored total other than 0: for
`c ≥ 1` (page size 10), a Previous control with target
`max(1, c - 1)` that is disabled exactly when `c = 1`, and a Next control
that, for a known total `t`, has target `min(max(1, ceil(t / 10)), c + 1)` and
is disabled exactly when `c ≥ max(1, ceil(t / 10))`, and for an unknown total
is not disabled and has target `c + 1`. -/
theorem prev_next_controls_nonzero (s : PagingState) (c : Int) (hps : s.pageSize = 10)
    (hc : 1 ≤ c) (hz : s.totalItems ≠ some 0) :
    ∃ prev next : PageItem,
      (renderPagination s c).head? = some prev ∧
      (renderPagination s c).getLast? = some next ∧
      prev.label = "Anterior" ∧ prev.page = max 1 (c - 1) ∧
      (prev.disabled = true ↔ c = 1) ∧ prev.active = false ∧
      next.label = "Próximo" ∧ next.active = false ∧
      (∀ t : Int, s.totalItems = some t →
        next.page = min (max 1 ⌈(t : ℚ) / 10⌉) (c + 1) ∧
        (next.disabled = true ↔ max 1 ⌈(t : ℚ) / 10⌉ ≤ c)) ∧
      (s.totalItems = none → next.disabled = false ∧ next.page = c + 1) := by
  have htp := totalPages_eq s c hps hc
  refine ⟨prevItem c, nextItem s c, rfl, ?_, rfl, rfl, ?_, rfl, rfl, rfl, ?_, ?_⟩
  · rw [renderPagination, ← List.cons_append, List.getLast?_append]
    simp
  · simp [prevItem, createPageItem]
  · intro t hs
    have ht : t ≠ 0 := fun h => hz (by rw [hs, h])
    have hhas : hasTotal s = true := by simp [hasTotal, hs, ht]
    have htp2 : totalPages s c = max 1 ⌈(t : ℚ) / 10⌉ := by
      rw [htp, hs]
      simp [ht]
    simp only [nextItem, createPageItem, hhas, if_true, htp2]
    simp
  · intro hs
    have htp2 : totalPages s c = c + 2 := by
      rw [htp, hs]
    simp only [nextItem, createPageItem, htp2]
    simp [hasTotal, hs]

/-- The first and the last control in the specification's examples: with a
total of 25, Next is enabled with target 3 on page 2 and disabled on page 3,
and Previous is disabled on page 1 only; with an unknown total on page 2,
Next is enabled with target 3. -/
theorem prev_next_controls_examples :
    (renderPagination { currentPage := 2, pageSize := 10, totalItems := some 25 } 2).getLast? =
      some { label := "Próximo", page := 3, disabled := false, active := false } ∧
    (renderPagination { currentPage := 3, pageSize := 10, totalItems := some 25 } 3).getLast? =
      some { label := "Próximo", page := 3, disabled := true, active := false } ∧
    (renderPagination { currentPage := 3, pageSize := 10, totalItems := some 25 } 3).head? =
      some { label := "Anterior", page := 2, disabled := false, active := false } ∧
    (renderPagination { currentPage := 1, pageSize := 10, totalItems := some 25 } 1).head? =
      some { label := "Anterior", page := 1, disabled := true, active := false } ∧
    (renderPagination { currentPage := 2, pageSize := 10, totalItems := none } 2).getLast? =
      some { label := "Próximo", page := 3, disabled := false, active := false } := by
  decide

theorem reachable_run {w : Widget} (hw : Reachable w) (es : List Event) :
    Reachable (run w es) := by
  induction es generalizing w with
  | nil => exact hw
  | cons e es ih => exact ih (Reachable.step e hw)

/-- In what `renderPagination(c)` renders for `c ≥ 1`, the active control has
target `c`, and every control that is neither disabled nor active has another
target. -/
theorem renderPagination_guard (s : PagingState) (c : Int) (hc : 1 ≤ c) :
    ∀ it ∈ renderPagination s c,
      (it.active = true → it.page = c) ∧
      (it.disabled = false → it.active = false → it.page ≠ c) := by
  intro it hit
  rw [renderPagination, List.mem_cons, List.mem_append, List.mem_singleton] at hit
  rcases hit with rfl | hit | rfl
  · refine ⟨by simp [prevItem, createPageItem], ?_⟩
    intro hd _
    have h1 : c ≠ 1 := by simpa [prevItem, createPageItem] using hd
    have : max 1 (c - 1) = c - 1 := max_eq_right (by omega)
    simp only [prevItem, createPageItem, this]
    omega
  · rw [numberItems, List.mem_map] at hit
    obtain ⟨i, _, rfl⟩ := hit
    simp [createPageItem]
  · refine ⟨by simp [nextItem, createPageItem], ?_⟩
    intro hd _
    have hlt : c < totalPages s c := by
      by_cases ht : hasTotal s = true
      · simpa [nextItem, createPageItem, ht] using hd
      · have : c + 2 ≤ max 1 (c + 2) := le_max_right _ _
        simp only [totalPages, ht]
        simp only [Bool.false_eq_true, if_false]
        omega
    have : min (totalPages s c) (c + 1) = c + 1 := min_eq_right (by omega)
    simp only [nextItem, createPageItem, this]
    omega

/-- Claim C8 as stated fails while a fetch is pending: in the reachable
widget `loadingSecondPage` the control "1" is still rendered as the active
page, and clicking it issues a second fetch and sets `currentPage` back to 1;
the control "2" is neither disabled nor active, and clicking it does
nothing. -/
theorem click_guard_fails_while_pending :
    Reachable loadingSecondPage ∧
    loadingSecondPage.state.currentPage = 2 ∧
    loadingSecondPage.pending.length = 1 ∧
    loadingSecondPage.paginationEl[1]? =
      some { label := "1", page := 1, disabled := false, active := true } ∧
    (step loadingSecondPage (.click 1)).pending.length = 2 ∧
    (step loadingSecondPage (.click 1)).state.currentPage = 1 ∧
    loadingSecondPage.paginationEl[2]? =
      some { label := "2", page := 2, disabled := false, active := false } ∧
    step loadingSecondPage (.click 2) = loadingSecondPage := by
  refine ⟨reachable_run Reachable.boot _, ?_, ?_, ?_, ?_, ?_, ?_, ?_⟩ <;> decide

/-- Claim C8, amended: in every reachable widget, clicking a rendered control
that is disabled or whose target equals the present `currentPage` issues no
fetch and changes nothing; clicking any other rendered control with target
`t` sets `currentPage` to `t` and issues exactly one request, the one of
`fetchUsers(t)`. While no fetch is pending, the controls whose target equals
`currentPage` are the one rendered active and disabled ones, so there the
guard is: disabled or rendered active. -/
theorem click_guard (w : Widget) (hw : Reachable w) (i : Nat) (it : PageItem)
    (hit : w.paginationEl[i]? = some it) :
    ((it.disabled = true ∨ it.page = w.state.currentPage) → step w (.click i) = w) ∧
    ((it.disabled = false ∧ it.page ≠ w.state.currentPage) →
      (step w (.click i)).state = { w.state with currentPage := it.page } ∧
      (step w (.click i)).pending = w.pending ++
        [{ url := "/api/users?offset=" ++ intToStr ((it.page - 1) * 10) ++ "&limit=10",
           accept := "application/json",
           offset := (it.page - 1) * 10,
           limit := 10 }] ∧
      (step w (.click i)).paginationEl = w.paginationEl) ∧
    (w.pending = [] →
      ((it.disabled = true ∨ it.active = true) → step w (.click i) = w) ∧
      ((it.disabled = false ∧ it.active = false) →
        it.page ≠ w.state.currentPage)) := by
  have hinv := inv_of_reachable hw
  have hget : w.paginationEl.get? i = some it := by simpa using hit
  have hstep : step w (.click i) = clickItem w it := by simp [step, hit]
  have hnoop : (it.disabled = true ∨ it.page = w.state.currentPage) → clickItem w it = w := by
    intro h
    unfold clickItem
    rcases h with h | h
    · simp [h]
    · simp [h]
  refine ⟨fun h => hstep.trans (hnoop h), ?_, ?_⟩
  · rintro ⟨hd, hp⟩
    have h10 : w.state.pageSize = 10 := hinv.1
    have hs : intToStr 10 = "10" := by decide
    rw [hstep]
    simp only [clickItem, hd, Bool.false_or, beq_iff_eq, hp, if_false, gotoPage,
      fetchUsersStart, buildRequest, h10, hs, String.append_assoc]
    exact ⟨trivial, rfl, trivial⟩
  · intro hq
    have hmem : it ∈ w.paginationEl := List.get?_mem hget
    rcases hinv.2.2.2 hq with hnil | hren
    · rw [hnil] at hmem
      simp at hmem
    · rw [hren] at hmem
      have hg := renderPagination_guard w.state w.state.currentPage hinv.2.1 it hmem
      refine ⟨?_, fun h => hg.2 h.1 h.2⟩
      rintro (h | h)
      · exact hstep.trans (hnoop (Or.inl h))
      · exact hstep.trans (hnoop (Or.inr (hg.1 h)))

/-- Instance of `click_guard`: after the first load, the control "2" is
enabled and not active; clicking it sets `currentPage` to 2 and issues the
request with offset 10. -/
theorem click_guard_witness :
    firstPageLoaded.paginationEl[2]? =
      some { label := "2", page := 2, disabled := false, active := false } ∧
    firstPageLoaded.pending = [] ∧
    (step firstPageLoaded (.click 2)).state =
      { firstPageLoaded.state with currentPage := 2 } ∧
    (step firstPageLoaded (.click 2)).pending = firstPageLoaded.pending ++
      [{ url := "/api/users?offset=" ++ intToStr ((2 - 1) * 10) ++ "&limit=10",
         accept := "application/json",
         offset := (2 - 1) * 10,
         limit := 10 }] ∧
    (step firstPageLoaded (.click 2)).paginationEl = firstPageLoaded.paginationEl :=
  ⟨by decide, by decide,
    (click_guard firstPageLoaded (reachable_run Reachable.boot _) 2
      { label := "2", page := 2, disabled := false, active := false } (by decide)).2.1
      ⟨rfl, by decide⟩⟩

/-! ### Escaping -/

theorem escapeHtml_str_data (s : String) :
    (escapeHtml (.str s)).data = s.data.flatMap escapeChar := by
  unfold escapeHtml jsOr
  by_cases h : truthy (.str s) = true
  · simp [h, toStr]
  · have hs : s.data = [] := by simpa [truthy] using h
    simp [h, toStr, hs]

theorem escapeChar_safe (c x : Char) (hx : x ∈ escapeChar c) :
    x ≠ '<' ∧ x ≠ '>' ∧ x ≠ Char.ofNat 34 ∧ x ≠ Char.ofNat 39 := by
  unfold escapeChar at hx
  split_ifs at hx with h1 h2 h3 h4 h5
  all_goals first
    | (simp only [List.mem_singleton] at hx
       subst hx
       exact ⟨h2, h3, h4, h5⟩)
    | (simp only [String.data, List.mem_cons, List.mem_singleton] at hx
       rcases hx with rfl | rfl | rfl | rfl | rfl | rfl | hx
       all_goals first | decide | simp at hx)

theorem cons_eq_append_amp {x : Char} {l pre tail : List Char} (hx : x ∉ l)
    (h : x :: l = pre ++ x :: tail) : pre = [] ∧ tail = l := by
  rcases pre with _ | ⟨p, pre⟩
  · simp at h
    exact ⟨rfl, h.symm⟩
  · exfalso
    simp only [List.cons_append, List.cons.injEq] at h
    apply hx
    rw [h.2]
    simp

theorem escapeChar_amp (c : Char) (pre tail : List Char)
    (h : escapeChar c = pre ++ '&' :: tail) : tail ∈ entityTails := by
  unfold escapeChar at h
  split_ifs at h with h1 h2 h3 h4 h5
  · have := (cons_eq_append_amp (l := "amp;".data) (by decide) h).2
    subst this
    decide
  · have := (cons_eq_append_amp (l := "lt;".data) (by decide) h).2
    subst this
    decide
  · have := (cons_eq_append_amp (l := "gt;".data) (by decide) h).2
    subst this
    decide
  · have := (cons_eq_append_amp (l := "quot;".data) (by decide) h).2
    subst this
    decide
  · have := (cons_eq_append_amp (l := "#39;".data) (by decide) h).2
    subst this
    decide
  · exfalso
    rcases pre with _ | ⟨p, pre⟩
    · simp at h
      exact h1 h.1
    · simp at h

theorem flatMap_escape_amp (cs : List Char) :
    ∀ pre post : List Char, cs.flatMap escapeChar = pre ++ '&' :: post →
      ∃ e ∈ entityTails, e <+: post := by
  induction cs with
  | nil =>
    intro pre post h
    simp at h
  | cons c cs ih =>
    intro pre post h
    rw [List.flatMap_cons, List.append_eq_append_iff] at h
    rcases h with ⟨a, _, h2⟩ | ⟨b, h1, h2⟩
    · exact ih a post h2
    · rcases b with _ | ⟨x, b⟩
      · exact ih [] post (by simpa using h2.symm)
      · simp only [List.cons_append, List.cons.injEq] at h2
        obtain ⟨rfl, rfl⟩ := h2
        exact ⟨b, escapeChar_amp c pre b h1, List.prefix_append _ _⟩

/-- Claim C9: for every string `s`, `escapeHtml(s)` is `s` with each `&`,
`<`, `>`, double quote and single quote replaced by `&amp;`, `&lt;`, `&gt;`,
`&quot;`, `&#39;` and every other character unchanged; the output contains
no `<`, `>`, double quote or single quote, and every `&` in it is followed by
the rest of one of the five entities; the name `<script>alert(1)</script>`
becomes `&lt;script&gt;alert(1)&lt;/script&gt;`. -/
theorem escapeHtml_escapes (s : String) :
    (escapeHtml (.str s)).data =
      s.data.flatMap (fun c =>
        (if c = '&' then "&amp;"
         else if c = '<' then "&lt;"
         else if c = '>' then "&gt;"
         else if c = Char.ofNat 34 then "&quot;"
         else if c = Char.ofNat 39 then "&#39;"
         else String.singleton c).data) ∧
    (∀ x ∈ (escapeHtml (.str s)).data,
      x ≠ '<' ∧ x ≠ '>' ∧ x ≠ Char.ofNat 34 ∧ x ≠ Char.ofNat 39) ∧
    (∀ pre post : List Char, (escapeHtml (.str s)).data = pre ++ '&' :: post →
      ∃ e ∈ ["amp;", "lt;", "gt;", "quot;", "#39;"], e.data <+: post) ∧
    escapeHtml (.str "<script>alert(1)</script>") =
      "&lt;script&gt;alert(1)&lt;/script&gt;" := by
  refine ⟨?_, ?_, ?_, by decide⟩
  · rw [escapeHtml_str_data]
    congr 1
    funext c
    unfold escapeChar
    split_ifs <;> rfl
  · intro x hx
    rw [escapeHtml_str_data, List.mem_flatMap] at hx
    obtain ⟨c, _, hc⟩ := hx
    exact escapeChar_safe c x hc
  · intro pre post h
    rw [escapeHtml_str_data] at h
    obtain ⟨e, he, hpre⟩ := flatMap_escape_amp s.data pre post h
    simp only [entityTails, List.mem_cons, List.mem_singleton, List.not_mem_nil, or_false] at he
    rcases he with rfl | rfl | rfl | rfl | rfl
    · exact ⟨"amp;", by simp, hpre⟩
    · exact ⟨"lt;", by simp, hpre⟩
    · exact ⟨"gt;", by simp, hpre⟩
    · exact ⟨"quot;", by simp, hpre⟩
    · exact ⟨"#39;", by simp, hpre⟩

/-! ### Cards -/

theorem truthy_jsOr (a b : JSVal) : truthy (jsOr a b) = (truthy a || truthy b) := by
  unfold jsOr
  cases h : truthy a <;> simp [h]

theorem jsOr_eq_firstTruthy (a : JSVal) (rest : List JSVal) (dflt : JSVal) :
    firstTruthy (a :: rest) dflt = jsOr a (firstTruthy rest dflt) := by
  unfold firstTruthy jsOr
  cases h : truthy a <;> simp [List.find?, h]

theorem jsOr_assoc (a b c : JSVal) : jsOr (jsOr a b) c = jsOr a (jsOr b c) := by
  unfold jsOr
  cases ha : truthy a <;> cases hb : truthy b <;> simp [ha, hb]

theorem firstTruthy_nil (dflt : JSVal) : firstTruthy [] dflt = dflt := rfl

theorem renderCard_eq_spec {u : JSVal} (h : isNullish u = false) :
    renderCard u = .ok (specCard u) := by
  have hfalsy : truthy (.str "") = false := rfl
  simp only [renderCard, userName, userEmail, userId, getProp_eq_ok h, bind, Except.bind,
    pure, Except.pure, specCard, cardHtml, emailLine, List.map, jsOr_eq_firstTruthy,
    firstTruthy_nil, jsOr_assoc, List.any, truthy_jsOr, hfalsy, Bool.or_false]

theorem renderCards_eq_spec (items : List JSVal) (h : ∀ u ∈ items, isNullish u = false) :
    renderCards items = .ok (items.map specCard) := by
  induction items with
  | nil => rfl
  | cons u rest ih =>
    have hu := h u (List.mem_cons_self _ _)
    have hrest := ih fun v hv => h v (List.mem_cons_of_mem _ hv)
    simp [renderCards, renderCard_eq_spec hu, hrest, bind, Except.bind, pure, Except.pure]

/-- Claim C10 as stated fails: the record `{nome: "Ana"}` has none of `name`,
`fullName`, `username`, `firstName`, so the claim asks for the placeholder
`(sem nome)`, and the card shows `Ana`, because line 113 also reads the field
`nome`. -/
theorem card_name_reads_nome :
    firstTruthy
      (["name", "fullName", "username", "firstName"].map
        (propOf (.obj [("nome", .str "Ana")]))) (.str "(sem nome)") = .str "(sem nome)" ∧
    userName (.obj [("nome", .str "Ana")]) = .ok (.str "Ana") ∧
    renderUsers (.arr [.obj [("nome", .str "Ana")]]) = .ok
      { innerHTML := "",
        children :=
          [{ className := "card mb-2",
             innerHTML := "\n        <div class=\"card-body\">\n          <h5 class=\"card-title\">Ana</h5>\n          \n          <p class=\"card-text\"><small class=\"text-muted\">ID: </small></p>\n        </div>\n      " }] } := by
  refine ⟨by rfl, by rfl, by rfl⟩

/-- Claim C10, amended: for every non-empty list of records (values other
than `null`), `renderUsers` renders exactly one card per record, in list
order, whose display name is the first truthy of the fields `name`,
`fullName`, `nome`, `username`, `firstName` (in that order) and the
placeholder `(sem nome)` if none is, whose e-mail line is present exactly
when one of `email`, `mail`, `emailAddress` is truthy (showing the first
such), and whose id text is `ID: ` followed by `id`, else `_id`, else
nothing, every inserted text escaped; an empty or absent list renders the
single placeholder and no card. -/
theorem renderUsers_cards (items : List JSVal) (hne : items ≠ [])
    (hrec : ∀ u ∈ items, isNullish u = false) :
    renderUsers (.arr items) = .ok
      { innerHTML := "",
        children := items.map fun u =>
          { className := "card mb-2",
            innerHTML :=
              "\n        <div class=\"card-body\">\n          <h5 class=\"card-title\">" ++
              escapeHtml (firstTruthy
                (["name", "fullName", "nome", "username", "firstName"].map (propOf u))
                (.str "(sem nome)")) ++
              "</h5>\n          " ++
              (if (["email", "mail", "emailAddress"].map (propOf u)).any truthy then
                "<h6 class=\"card-subtitle mb-2 text-muted\">" ++
                  escapeHtml (firstTruthy (["email", "mail", "emailAddress"].map (propOf u))
                    (.str "")) ++ "</h6>"
               else "") ++
              "\n          <p class=\"card-text\"><small class=\"text-muted\">ID: " ++
              escapeHtml (.str (toStr (firstTruthy (["id", "_id"].map (propOf u))
                (.str "")))) ++
              "</small></p>\n        </div>\n      " } } ∧
    renderUsers (.arr []) = .ok
      { innerHTML := "<div class=\"text-muted\">Nenhum usuário nesta página.</div>",
        children := [] } ∧
    renderUsers .null = renderUsers (.arr []) ∧
    renderUsers .undefined = renderUsers (.arr []) := by
  refine ⟨?_, rfl, rfl, rfl⟩
  rcases items with _ | ⟨u, rest⟩
  · exact absurd rfl hne
  · simp only [renderUsers, truthy, Bool.not_true, Bool.false_eq_true, if_false,
      renderCards_eq_spec (u :: rest) hrec, bind, Except.bind, pure, Except.pure]
    rfl

set_option maxRecDepth 8000 in
/-- Instance of `renderUsers_cards`: the record
`{name: "Ana", email: "a@x.com", id: 3}` followed by the record `{}`. -/
theorem renderUsers_cards_witness :
    renderUsers (.arr
      [.obj [("name", .str "Ana"), ("email", .str "a@x.com"), ("id", .num 3)], .obj []]) =
      .ok
        { innerHTML := "",
          children :=
            [{ className := "card mb-2",
               innerHTML := "\n        <div class=\"card-body\">\n          <h5 class=\"card-title\">Ana</h5>\n          <h6 class=\"card-subtitle mb-2 text-muted\">a@x.com</h6>\n          <p class=\"card-text\"><small class=\"text-muted\">ID: 3</small></p>\n        </div>\n      " },
             { className := "card mb-2",
               innerHTML := "\n        <div class=\"card-body\">\n          <h5 class=\"card-title\">(sem nome)</h5>\n          \n          <p class=\"card-text\"><small class=\"text-muted\">ID: </small></p>\n        </div>\n      " }] } :=
  (renderUsers_cards
    [.obj [("name", .str "Ana"), ("email", .str "a@x.com"), ("id", .num 3)], .obj []]
    (by simp) (by simp [isNullish])).1.trans (congrArg Except.ok (by decide))

/-! ### Failure, persistence and the paging invariant -/

theorem readResponse_of_fails (s : PagingState) {o : FetchOutcome} {err : JSError}
    (h : FetchFails o err) : readResponse s o = .error err := by
  cases h with
  | rejected => rfl
  | status r hok => simp [readResponse, hok, bind, Except.bind, throw, throwThe,
      MonadExceptOf.throw]
  | json r err hok hjson => simp [readResponse, hok, hjson, bind, Except.bind, pure, Except.pure]

theorem fetchUsersSettle_of_fails (w : Widget) {o : FetchOutcome} {err : JSError}
    (h : FetchFails o err) : fetchUsersSettle w o = showError w err := by
  simp [fetchUsersSettle, readResponse_of_fails w.state h]

/-- Claim C11: when the fetch rejects, the status is not a success status or
the body is not valid JSON, the `try` block throws the error and the `catch`
block handles it: the rest of `fetchUsers` completes with the list region
holding exactly the error alert with the escaped message, the pagination
region empty, so that no click on any control position does anything, and the
error logged; `state` and the pending requests are untouched. -/
theorem failure_outcome (w : Widget) (o : FetchOutcome) (err : JSError)
    (hfail : FetchFails o err) :
    readResponse w.state o = .error err ∧
    (fetchUsersSettle w o).usersEl =
      { innerHTML := "<div class=\"alert alert-danger\">Erro ao carregar usuários: " ++
          escapeHtml (.str err.message) ++ "</div>",
        children := [] } ∧
    (fetchUsersSettle w o).paginationEl = [] ∧
    (∀ i : Nat, step (fetchUsersSettle w o) (.click i) = fetchUsersSettle w o) ∧
    (fetchUsersSettle w o).logged = w.logged ++ [err] ∧
    (fetchUsersSettle w o).state = w.state ∧
    (fetchUsersSettle w o).pending = w.pending := by
  rw [fetchUsersSettle_of_fails w hfail]
  refine ⟨readResponse_of_fails w.state hfail, rfl, rfl, ?_, rfl, rfl, rfl⟩
  intro i
  simp [step, showError]

/-- Instance of `failure_outcome`: the first request answered with HTTP 500. -/
theorem failure_outcome_witness :
    (step boot (.settle 0 (.resolved serverError))).usersEl =
      { innerHTML := "<div class=\"alert alert-danger\">Erro ao carregar usuários: Erro HTTP 500</div>",
        children := [] } ∧
    (step boot (.settle 0 (.resolved serverError))).paginationEl = [] :=
  ⟨(failure_outcome { boot with pending := [] } (.resolved serverError) _
      (FetchFails.status serverError rfl)).2.1.trans (by decide),
   (failure_outcome { boot with pending := [] } (.resolved serverError) _
      (FetchFails.status serverError rfl)).2.2.1⟩

theorem readResponse_ok_inv {s : PagingState} {o : FetchOutcome}
    {x : JSVal × Option JSNum} (h : readResponse s o = .ok x) :
    ∃ r data, o = .resolved r ∧ r.ok = true ∧ r.json = .ok data := by
  cases o with
  | rejected err => simp [readResponse, throw, throwThe, MonadExceptOf.throw] at h
  | resolved r =>
    by_cases hok : r.ok = true
    · cases hj : r.json with
      | error e =>
        simp [readResponse, hok, hj, bind, Except.bind, pure, Except.pure] at h
      | ok data => exact ⟨r, data, rfl, hok, hj⟩
    · simp [readResponse, hok, bind, Except.bind, throw, throwThe, MonadExceptOf.throw] at h

/-- Only the settling of a request with a response of success status and a
parsed body can change `totalItems`. -/
theorem totalItems_frame (w : Widget) (e : Event)
    (h : (step w e).state.totalItems ≠ w.state.totalItems) :
    ∃ i r data, e = .settle i (.resolved r) ∧ r.ok = true ∧ r.json = .ok data := by
  cases e with
  | click i =>
    exfalso
    apply h
    simp only [step]
    cases w.paginationEl.get? i with
    | none => rfl
    | some it =>
      simp only [clickItem]
      split <;> rfl
  | settle i o =>
    simp only [step, List.get?_eq_getElem?] at h
    cases hg : w.pending[i]? with
    | none => simp [hg] at h
    | some req =>
      simp only [hg] at h
      cases hr : readResponse w.state o with
      | error err =>
        exfalso
        apply h
        simp [fetchUsersSettle, hr, showError]
      | ok x =>
        obtain ⟨r, data, ho, hok, hj⟩ := readResponse_ok_inv hr
        exact ⟨i, r, data, by rw [ho], hok, hj⟩

/-- Claim C12 as stated fails: after `{total: 25}` was stored, the next
successful response, the empty array with no header, resets `totalItems` to
unknown. -/
theorem learned_total_is_forgotten :
    totalLearned.state.totalItems = some 25 ∧
    (run totalLearned [.click 2, .settle 0 (.resolved emptyPage)]).state.totalItems = none ∧
    (run totalLearned [.click 2, .settle 0 (.resolved emptyPage)]).state.totalItems ≠
      totalLearned.state.totalItems := by
  decide

/-- Claim C12, amended: a successful response with a body other than `null`
that reveals no total (no `X-Total-Count` header, none of `total`,
`totalCount`, `count`, `meta.total`, `meta.totalCount`, `totalPages`) sets
`totalItems` to unknown, whatever value `n` it held; and `totalItems` changes
only when a request settles with a response of success status and valid JSON
body. -/
theorem silent_response_resets_total (w : Widget) (n : Int) (r : Response) (data : JSVal)
    (hn : w.state.totalItems = some n)
    (hok : r.ok = true) (hjson : r.json = .ok data) (hdata : isNullish data = false)
    (hhdr : r.xTotalCount = none)
    (ht : notNullish (propOf data "total") = false)
    (htc : notNullish (propOf data "totalCount") = false)
    (hc : notNullish (propOf data "count") = false)
    (hmt : notNullish (propOf (propOf data "meta") "total") = false)
    (hmtc : notNullish (propOf (propOf data "meta") "totalCount") = false)
    (htp : notNullish (propOf data "totalPages") = false) :
    (fetchUsersSettle w (.resolved r)).state.totalItems = none ∧
    (fetchUsersSettle w (.resolved r)).state.totalItems ≠ w.state.totalItems ∧
    (∀ e : Event, (step w e).state.totalItems ≠ w.state.totalItems →
      ∃ i r1 data1, e = .settle i (.resolved r1) ∧ r1.ok = true ∧ r1.json = .ok data1) := by
  have hnone : (fetchUsersSettle w (.resolved r)).state.totalItems = none := by
    rw [settle_totalItems w r data hok hjson hdata]
    have hh : jsOr (headersGet r) (headersGet r) = .null := by
      simp [headersGet, hhdr, jsOr]
    simp [totalOf, hh, ht, htc, hc, hmt, hmtc, htp, truthy, storedTotal]
  refine ⟨hnone, ?_, fun e he => totalItems_frame w e he⟩
  rw [hnone, hn]
  simp

/-- Instance of `silent_response_resets_total`: the known total 25 and the
empty array as next body. -/
theorem silent_response_resets_total_witness :
    (fetchUsersSettle totalLearned (.resolved emptyPage)).state.totalItems = none :=
  (silent_response_resets_total totalLearned 25 emptyPage (.arr []) (by decide) rfl rfl rfl
    rfl rfl rfl rfl rfl rfl rfl).1

/-- Claim C13 as stated fails: from the loaded first page, a click on the
enabled control "2" whose fetch then fails (rejection, or HTTP 500) leaves
`currentPage` at 2, not at the 1 it was before the click; `totalItems` is
unchanged. -/
theorem failed_navigation_is_not_rolled_back :
    firstPageLoaded.state.currentPage = 1 ∧
    firstPageLoaded.paginationEl[2]? =
      some { label := "2", page := 2, disabled := false, active := false } ∧
    (run firstPageLoaded
      [.click 2, .settle 0 (.rejected ⟨"Failed to fetch"⟩)]).state.currentPage = 2 ∧
    (run firstPageLoaded
      [.click 2, .settle 0 (.resolved serverError)]).state.currentPage = 2 ∧
    (run firstPageLoaded
      [.click 2, .settle 0 (.rejected ⟨"Failed to fetch"⟩)]).state ≠ firstPageLoaded.state := by
  decide

/-- Claim C13, amended: for every state and every click on an enabled,
non-current control with target `t` whose fetch then fails (rejection,
non-success status or invalid JSON), `totalItems` and `pageSize` after the
failure are what they were before the click and `currentPage` is `t`: the
navigation is not rolled back. -/
theorem failed_navigation_keeps_target (w : Widget) (i : Nat) (it : PageItem)
    (o : FetchOutcome) (err : JSError)
    (hit : w.paginationEl[i]? = some it) (hd : it.disabled = false)
    (hp : it.page ≠ w.state.currentPage) (hfail : FetchFails o err) :
    (step (step w (.click i)) (.settle w.pending.length o)).state =
      { w.state with currentPage := it.page } ∧
    (step (step w (.click i)) (.settle w.pending.length o)).state.totalItems =
      w.state.totalItems ∧
    (step (step w (.click i)) (.settle w.pending.length o)).state.currentPage ≠
      w.state.currentPage ∧
    (step (step w (.click i)) (.settle w.pending.length o)).pending = w.pending := by
  have hclick : step w (.click i) = gotoPage w it.page := by
    simp [step, hit, clickItem, hd, hp]
  have hget : (gotoPage w it.page).pending[w.pending.length]? =
      some (buildRequest { w.state with currentPage := it.page } it.page) := by
    simp [gotoPage, fetchUsersStart]
  have herase : (gotoPage w it.page).pending.eraseIdx w.pending.length = w.pending := by
    simp [gotoPage, fetchUsersStart, List.eraseIdx_append_of_length_le]
  have hsettle : step (gotoPage w it.page) (.settle w.pending.length o) =
      showError { gotoPage w it.page with pending := w.pending } err := by
    simp only [step, List.get?_eq_getElem?, hget, herase]
    exact fetchUsersSettle_of_fails _ hfail
  rw [hclick, hsettle]
  refine ⟨rfl, rfl, ?_, rfl⟩
  exact hp

/-- Instance of `failed_navigation_keeps_target`: the control "2" of the
loaded first page, answered with HTTP 500. -/
theorem failed_navigation_keeps_target_witness :
    (step (step firstPageLoaded (.click 2))
      (.settle firstPageLoaded.pending.length (.resolved serverError))).state =
      { firstPageLoaded.state with currentPage := 2 } :=
  (failed_navigation_keeps_target firstPageLoaded 2
    { label := "2", page := 2, disabled := false, active := false }
    (.resolved serverError) _ (by decide) rfl (by decide)
    (FetchFails.status serverError rfl)).1

theorem buildRequest_ok (s : PagingState) (p : Int) (hps : s.pageSize = 10) (hp : 1 ≤ p) :
    (buildRequest s p).limit = 10 ∧ 0 ≤ (buildRequest s p).offset ∧
      (10 : Int) ∣ (buildRequest s p).offset := by
  have hl : (buildRequest s p).limit = s.pageSize := rfl
  have ho : (buildRequest s p).offset = (p - 1) * s.pageSize := rfl
  rw [hl, ho, hps]
  exact ⟨rfl, by omega, Dvd.intro_left _ rfl⟩

/-- Every request that is pending in a reachable widget has limit 10 and an
offset that is a non-negative multiple of 10. -/
theorem pending_of_reachable {w : Widget} (hw : Reachable w) :
    ∀ req ∈ w.pending, req.limit = 10 ∧ 0 ≤ req.offset ∧ (10 : Int) ∣ req.offset := by
  induction hw with
  | boot =>
    intro req hreq
    simp only [boot, fetchUsersStart, blankWidget, List.nil_append, List.mem_singleton] at hreq
    subst hreq
    exact buildRequest_ok initialState 1 rfl (by decide)
  | @step w e hw ih =>
    have hinv := inv_of_reachable hw
    cases e with
    | click i =>
      simp only [step]
      cases hg : w.paginationEl.get? i with
      | none => exact ih
      | some it =>
        simp only [clickItem]
        split
        · exact ih
        · intro req hreq
          simp only [gotoPage, fetchUsersStart, List.mem_append, List.mem_singleton] at hreq
          rcases hreq with hreq | rfl
          · exact ih req hreq
          · exact buildRequest_ok _ _ hinv.1 (hinv.2.2.1 it (List.get?_mem hg))
    | settle i o =>
      simp only [step]
      cases hg : w.pending.get? i with
      | none => exact ih
      | some _ =>
        intro req hreq
        obtain ⟨_, _, _, hp⟩ :=
          fetchUsersSettle_shape { w with pending := w.pending.eraseIdx i } o
        rw [hp] at hreq
        exact ih req (List.mem_of_mem_eraseIdx hreq)

/-- Claim C14: in every widget reachable from the initial state by clicks and
fetch outcomes, `pageSize` is 10, `currentPage` is an integer `≥ 1` and
`totalItems` is unknown or a finite number (line 88 stores a value only when
`total` is finite); every control in the pagination region, and every control
`renderPagination` would render from the state, has a target `≥ 1`; every
pending request has limit 10 and an offset that is a non-negative multiple
of 10. -/
theorem paging_state_invariant (w : Widget) (hw : Reachable w) :
    w.state.pageSize = 10 ∧
    1 ≤ w.state.currentPage ∧
    (w.state.totalItems = none ∨ ∃ n : Int, w.state.totalItems = some n) ∧
    (∀ (o : FetchOutcome) (users : JSVal) (total : Option JSNum),
      readResponse w.state o = .ok (users, total) →
      (fetchUsersSettle w o).state.totalItems =
        match total with
        | some (.fin n) => some n
        | _ => none) ∧
    (∀ it ∈ w.paginationEl, 1 ≤ it.page) ∧
    (∀ it ∈ renderPagination w.state w.state.currentPage, 1 ≤ it.page) ∧
    (∀ req ∈ w.pending, req.limit = 10 ∧ 0 ≤ req.offset ∧ (10 : Int) ∣ req.offset) := by
  obtain ⟨h1, h2, h3, _⟩ := inv_of_reachable hw
  refine ⟨h1, h2, ?_, ?_, h3, renderPagination_page_pos _ _ h2, pending_of_reachable hw⟩
  · cases w.state.totalItems with
    | none => exact Or.inl rfl
    | some n => exact Or.inr ⟨n, rfl⟩
  · intro o users total hr
    have hs : (fetchUsersSettle w o).state.totalItems = storedTotal total := by
      simp only [fetchUsersSettle, hr]
      cases renderUsers users <;> simp [showError]
    rw [hs]
    rcases total with _ | x
    · rfl
    · cases x <;> rfl

/-- Instance of `paging_state_invariant`: the widget that is loading page 2. -/
theorem paging_state_invariant_witness :
    loadingSecondPage.state.pageSize = 10 ∧
    1 ≤ loadingSecondPage.state.currentPage ∧
    (∀ req ∈ loadingSecondPage.pending,
      req.limit = 10 ∧ 0 ≤ req.offset ∧ (10 : Int) ∣ req.offset) :=
  ⟨(paging_state_invariant loadingSecondPage (reachable_run Reachable.boot _)).1,
   (paging_state_invariant loadingSecondPage (reachable_run Reachable.boot _)).2.1,
   (paging_state_invariant loadingSecondPage (reachable_run Reachable.boot _)).2.2.2.2.2.2⟩

/-! ### The escaping can be undone -/

theorem replaceAux_skip (pat rep xs cs : List Char) :
    replaceAux pat rep xs.length (xs ++ cs) = replaceAux pat rep 0 cs := by
  induction xs with
  | nil => rfl
  | cons x xs ih => simpa [replaceAux] using ih

theorem replaceAux_match (p : Char) (ps rep cs : List Char) :
    replaceAux (p :: ps) rep 0 ((p :: ps) ++ cs) = rep ++ replaceAux (p :: ps) rep 0 cs := by
  have hpre : (p :: ps).isPrefixOf (p :: (ps ++ cs)) = true := by
    rw [List.isPrefixOf_iff_prefix]
    exact List.prefix_append (p :: ps) cs
  show replaceAux (p :: ps) rep 0 (p :: (ps ++ cs)) = _
  rw [replaceAux, if_pos hpre]
  show rep ++ replaceAux (p :: ps) rep ps.length (ps ++ cs) = _
  rw [replaceAux_skip]

theorem replaceAux_no_match (pat rep : List Char) (c : Char) (cs : List Char)
    (h : pat.isPrefixOf (c :: cs) = false) :
    replaceAux pat rep 0 (c :: cs) = c :: replaceAux pat rep 0 cs := by
  simp [replaceAux, h]

theorem replaceAux_plain (p : Char) (ps rep xs cs : List Char) (h : ∀ x ∈ xs, x ≠ p) :
    replaceAux (p :: ps) rep 0 (xs ++ cs) = xs ++ replaceAux (p :: ps) rep 0 cs := by
  induction xs with
  | nil => rfl
  | cons x xs ih =>
    have hx : x ≠ p := h x (List.mem_cons_self _ _)
    have hpre : (p :: ps).isPrefixOf (x :: (xs ++ cs)) = false := by
      simp [List.isPrefixOf, Ne.symm hx]
    rw [List.cons_append, replaceAux_no_match _ _ _ _ hpre,
      ih fun y hy => h y (List.mem_cons_of_mem _ hy)]
    rfl

theorem replaceAux_other_entity (p p1 : Char) (ptail rep : List Char) (q : Char)
    (tail cs : List Char) (hq : q ≠ p1) (hno : ∀ x ∈ q :: tail, x ≠ p) :
    replaceAux (p :: p1 :: ptail) rep 0 ((p :: q :: tail) ++ cs) =
      (p :: q :: tail) ++ replaceAux (p :: p1 :: ptail) rep 0 cs := by
  have hpre : (p :: p1 :: ptail).isPrefixOf (p :: ((q :: tail) ++ cs)) = false := by
    simp [List.isPrefixOf, Ne.symm hq]
  rw [List.cons_append, replaceAux_no_match _ _ _ _ hpre,
    replaceAux_plain p (p1 :: ptail) rep (q :: tail) cs hno]
  rfl

/-- One pass of replacement undoes the escaping of one character `c0`, when
the images of the other characters are free of `&` or are entities that
differ from the pattern in the character after `&`. -/
theorem replace_pass (p1 : Char) (ptail : List Char) (c0 : Char) (f g : Char → List Char)
    (hf0 : f c0 = '&' :: p1 :: ptail) (hg0 : g c0 = [c0])
    (hother : ∀ c, c ≠ c0 → g c = f c ∧
      ((∀ x ∈ f c, x ≠ '&') ∨
        ∃ q tail, f c = '&' :: q :: tail ∧ q ≠ p1 ∧ ∀ x ∈ q :: tail, x ≠ '&')) :
    ∀ cs : List Char,
      replaceAux ('&' :: p1 :: ptail) [c0] 0 (cs.flatMap f) = cs.flatMap g := by
  intro cs
  induction cs with
  | nil => rfl
  | cons c cs ih =>
    rw [List.flatMap_cons, List.flatMap_cons]
    by_cases hc : c = c0
    · subst hc
      rw [hf0, hg0, replaceAux_match, ih]
    · obtain ⟨hg, hshape⟩ := hother c hc
      rw [hg]
      rcases hshape with hplain | ⟨q, tail, hfc, hq, hno⟩
      · rw [replaceAux_plain '&' (p1 :: ptail) [c0] (f c) _ hplain, ih]
      · rw [hfc, replaceAux_other_entity '&' p1 ptail [c0] q tail _ hq hno, ih]

theorem escapeChar_shape (c : Char) :
    (escapeChar c = [c] ∧ c ≠ '&') ∨
      ∃ q tail, escapeChar c = '&' :: q :: tail ∧ ∀ x ∈ q :: tail, x ≠ '&' := by
  unfold escapeChar
  split_ifs with h1 h2 h3 h4 h5
  · exact Or.inr ⟨'a', ['m', 'p', ';'], rfl, by decide⟩
  · exact Or.inr ⟨'l', ['t', ';'], rfl, by decide⟩
  · exact Or.inr ⟨'g', ['t', ';'], rfl, by decide⟩
  · exact Or.inr ⟨'q', ['u', 'o', 't', ';'], rfl, by decide⟩
  · exact Or.inr ⟨'#', ['3', '9', ';'], rfl, by decide⟩
  · exact Or.inl ⟨rfl, h1⟩

theorem escapeChar_entity (c q : Char) (tail : List Char)
    (h : escapeChar c = '&' :: q :: tail) :
    (c = '&' ∧ q = 'a') ∨ (c = '<' ∧ q = 'l') ∨ (c = '>' ∧ q = 'g') ∨
      (c = Char.ofNat 34 ∧ q = 'q') ∨ (c = Char.ofNat 39 ∧ q = '#') := by
  unfold escapeChar at h
  split_ifs at h with h1 h2 h3 h4 h5
  · simp only [String.data, List.cons.injEq] at h
    exact Or.inl ⟨h1, h.2.1.symm⟩
  · simp only [String.data, List.cons.injEq] at h
    exact Or.inr (Or.inl ⟨h2, h.2.1.symm⟩)
  · simp only [String.data, List.cons.injEq] at h
    exact Or.inr (Or.inr (Or.inl ⟨h3, h.2.1.symm⟩))
  · simp only [String.data, List.cons.injEq] at h
    exact Or.inr (Or.inr (Or.inr (Or.inl ⟨h4, h.2.1.symm⟩)))
  · simp only [String.data, List.cons.injEq] at h
    exact Or.inr (Or.inr (Or.inr (Or.inr ⟨h5, h.2.1.symm⟩)))
  · simp at h

theorem escapeChar_second (c c0 q q0 : Char) (tail tail0 : List Char)
    (h : escapeChar c = '&' :: q :: tail) (h0 : escapeChar c0 = '&' :: q0 :: tail0)
    (hne : c ≠ c0) : q ≠ q0 := by
  rcases escapeChar_entity c q tail h with
    ⟨e, rfl⟩ | ⟨e, rfl⟩ | ⟨e, rfl⟩ | ⟨e, rfl⟩ | ⟨e, rfl⟩ <;>
  rcases escapeChar_entity c0 q0 tail0 h0 with
    ⟨e0, rfl⟩ | ⟨e0, rfl⟩ | ⟨e0, rfl⟩ | ⟨e0, rfl⟩ | ⟨e0, rfl⟩ <;>
  first
    | exact absurd (e.trans e0.symm) hne
    | decide

/-- One pass of the reverse replacement: the entity of `c0` is replaced by
`c0` and the images of the other characters are left alone. -/
theorem unescape_pass (still rest : List Char) (c0 p1 : Char) (ptail : List Char)
    (h0 : escapeChar c0 = '&' :: p1 :: ptail) (hin : c0 ∈ still) (hout : c0 ∉ rest)
    (hrest : ∀ c, c ≠ c0 → (c ∈ rest ↔ c ∈ still)) (hamp : '&' ∈ still)
    (cs : List Char) :
    replaceAux ('&' :: p1 :: ptail) [c0] 0 (cs.flatMap (escapeOnly still)) =
      cs.flatMap (escapeOnly rest) := by
  apply replace_pass p1 ptail c0 (escapeOnly still) (escapeOnly rest)
  · simp [escapeOnly, hin, h0]
  · simp [escapeOnly, hout]
  · intro c hc
    have hiff := hrest c hc
    by_cases hs : c ∈ still
    · have hr : c ∈ rest := hiff.mpr hs
      refine ⟨by simp [escapeOnly, hs, hr], ?_⟩
      simp only [escapeOnly, hs, if_true]
      rcases escapeChar_shape c with ⟨hplain, hca⟩ | ⟨q, tail, hq, hno⟩
      · left
        rw [hplain]
        intro x hx
        simp only [List.mem_singleton] at hx
        rw [hx]
        exact hca
      · right
        exact ⟨q, tail, hq, escapeChar_second c c0 q p1 tail ptail hq h0 hc, hno⟩
    · have hr : c ∉ rest := fun h => hs (hiff.mp h)
      refine ⟨by simp [escapeOnly, hs, hr], Or.inl ?_⟩
      simp only [escapeOnly, hs, if_false]
      intro x hx
      simp only [List.mem_singleton] at hx
      rw [hx]
      intro hamp2
      exact hs (hamp2 ▸ hamp)

theorem escapeOnly_all (c : Char) :
    escapeOnly ['&', '<', '>', Char.ofNat 34, Char.ofNat 39] c = escapeChar c := by
  unfold escapeOnly
  split
  · rfl
  · rename_i h
    simp only [List.mem_cons, List.mem_singleton, List.not_mem_nil, or_false, not_or] at h
    simp [escapeChar, h]

theorem flatMap_escapeOnly_nil (cs : List Char) : cs.flatMap (escapeOnly []) = cs := by
  induction cs with
  | nil => rfl
  | cons c cs ih => simp [List.flatMap_cons, escapeOnly, ih]

/-- The five passes of `unescapeHtml` undo `escapeHtml` on every string. -/
theorem unescapeHtml_escapeHtml (s : String) : unescapeHtml (escapeHtml (.str s)) = s := by
  apply String.ext
  have hall : s.data.flatMap escapeChar =
      s.data.flatMap (escapeOnly ['&', '<', '>', Char.ofNat 34, Char.ofNat 39]) := by
    congr 1
    funext c
    exact (escapeOnly_all c).symm
  have p1 := unescape_pass ['&', '<', '>', Char.ofNat 34, Char.ofNat 39]
    ['&', '>', Char.ofNat 34, Char.ofNat 39] '<' 'l' ['t', ';'] rfl (by decide) (by decide)
    (fun c hc => by simp [hc]) (by decide) s.data
  have p2 := unescape_pass ['&', '>', Char.ofNat 34, Char.ofNat 39]
    ['&', Char.ofNat 34, Char.ofNat 39] '>' 'g' ['t', ';'] rfl (by decide) (by decide)
    (fun c hc => by simp [hc]) (by decide) s.data
  have p3 := unescape_pass ['&', Char.ofNat 34, Char.ofNat 39]
    ['&', Char.ofNat 39] (Char.ofNat 34) 'q' ['u', 'o', 't', ';'] rfl (by decide) (by decide)
    (fun c hc => by simp [hc]) (by decide) s.data
  have p4 := unescape_pass ['&', Char.ofNat 39]
    ['&'] (Char.ofNat 39) '#' ['3', '9', ';'] rfl (by decide) (by decide)
    (fun c hc => by simp [hc]) (by decide) s.data
  have p5 := unescape_pass ['&'] [] '&' 'a' ['m', 'p', ';'] rfl (by decide) (by decide)
    (fun c hc => by simp [hc]) (by decide) s.data
  show replaceAll "&amp;" "&" (replaceAll "&#39;" "\x27" (replaceAll "&quot;" "\x22"
    (replaceAll "&gt;" ">" (replaceAll "&lt;" "<" (escapeHtml (.str s)).data)))) = s.data
  rw [escapeHtml_str_data, hall]
  have e1 : replaceAll "&lt;" "<" = replaceAux ['&', 'l', 't', ';'] ['<'] 0 := rfl
  have e2 : replaceAll "&gt;" ">" = replaceAux ['&', 'g', 't', ';'] ['>'] 0 := rfl
  have e3 : replaceAll "&quot;" "\x22" =
      replaceAux ['&', 'q', 'u', 'o', 't', ';'] [Char.ofNat 34] 0 := rfl
  have e4 : replaceAll "&#39;" "\x27" =
      replaceAux ['&', '#', '3', '9', ';'] [Char.ofNat 39] 0 := rfl
  have e5 : replaceAll "&amp;" "&" = replaceAux ['&', 'a', 'm', 'p', ';'] ['&'] 0 := rfl
  rw [e1, e2, e3, e4, e5, p1, p2, p3, p4, p5, flatMap_escapeOnly_nil]

/-- Claim C15: `escapeHtml` is lossless on strings: replacing the entities
`&lt;`, `&gt;`, `&quot;`, `&#39;` and then `&amp;` in `escapeHtml(s)` by
their characters returns `s`; hence two different strings never have the same
escaped text; and `escapeHtml` is not idempotent, since
`escapeHtml(escapeHtml("&"))` is `&amp;amp;`, not `&amp;`. -/
theorem escapeHtml_lossless (s t : String) :
    unescapeHtml (escapeHtml (.str s)) = s ∧
    (escapeHtml (.str s) = escapeHtml (.str t) → s = t) ∧
    escapeHtml (.str "&") = "&amp;" ∧
    escapeHtml (.str (escapeHtml (.str "&"))) = "&amp;amp;" ∧
    escapeHtml (.str (escapeHtml (.str "&"))) ≠ escapeHtml (.str "&") := by
  refine ⟨unescapeHtml_escapeHtml s, ?_, by decide, by decide, by decide⟩
  intro h
  have hs := unescapeHtml_escapeHtml s
  rw [h, unescapeHtml_escapeHtml t] at hs
  exact hs.symm

/-- Instance of `escapeHtml_lossless`: a text that already contains an
entity. -/
theorem escapeHtml_lossless_witness :
    escapeHtml (.str "<a href=\x22x\x22>&lt;</a>") =
      "&lt;a href=&quot;x&quot;&gt;&amp;lt;&lt;/a&gt;" ∧
    unescapeHtml (escapeHtml (.str "<a href=\x22x\x22>&lt;</a>")) =
      "<a href=\x22x\x22>&lt;</a>" :=
  ⟨by decide, (escapeHtml_lossless "<a href=\x22x\x22>&lt;</a>" "").1⟩

end TFDS
